import Mathlib

/-!
Verification of the mb_support_bot message-routing core against its
natural-language specification.

The Python sources under `support_bot/` are shallowly embedded: repository
methods over SQLite tables become pure functions over list-valued stores,
handlers become state-passing functions that also record the outbound
gateway calls they perform (an `Effect` trace) and the exception they
raise, if any.  Telegram/aiogram exception classes are embedded as the
`TgExc` sum type; Python `try/except` blocks become matches on
`Option TgExc` / `Except TgExc`.

Out-of-scope collaborators (Google-Sheets export, logging text, keyboard
markup rendering) are not modelled: they do not touch the stores or the
gateway effects the claims are about.
-/

namespace SupportBot

/-- Needle is a prefix of haystack (on character lists). -/
def charsStartWith : List Char → List Char → Bool
  | [], _ => true
  | _ :: _, [] => false
  | a :: as, b :: bs => a == b && charsStartWith as bs

/-- Needle occurs somewhere in haystack (on character lists). -/
def charsContain (needle : List Char) : List Char → Bool
  | [] => charsStartWith needle []
  | b :: bs => charsStartWith needle (b :: bs) || charsContain needle bs

/-- Substring test: Python's `needle in haystack` for strings. -/
def containsSub (haystack needle : String) : Bool :=
  charsContain needle.data haystack.data

/-- Python's str.lower (over the characters; the claims only ever apply
it to ASCII error messages). -/
def pyLower (s : String) : String := ⟨s.data.map Char.toLower⟩

/-- Split a character list at a separator (Python str.split semantics:
the empty string yields one empty field). -/
def splitChars (sep : Char) : List Char → List (List Char)
  | [] => [[]]
  | c :: rest =>
    let r := splitChars sep rest
    if c == sep then [] :: r
    else
      match r with
      | [] => [[c]]
      | h :: tl => (c :: h) :: tl

/-- Python's `s.split('.')`. -/
def pySplitDot (s : String) : List String :=
  (splitChars '.' s.data).map (fun cs => ⟨cs⟩)

/-- Exceptions that can cross the embedded handler boundaries.
`forbidden` is aiogram's TelegramForbiddenError (user blocked the bot),
`badRequest` is TelegramBadRequest carrying its message text,
`nameError`/`attributeError` are the Python name-resolution failures,
`otherError` stands for any other `Exception` subclass. -/
inductive TgExc where
  | forbidden
  | badRequest (message : String)
  | nameError (missing : String)
  | attributeError (attr : String)
  | otherError (s : String)
deriving DecidableEq, Repr

/-- One stored row of the `tgusers` table (`db.py`, class TgUsers /
dataclass DbTgUser). -/
structure UserRec where
  user_id : Int
  full_name : String
  username : Option String
  thread_id : Option Int
  last_user_msg_at : Nat
  subject : Option String
  banned : Bool
  first_replied : Bool
  can_message : Bool
deriving DecidableEq, Repr

/-- One stored row of the `actionstats` table (`db.py`, class ActionStats),
with UNIQUE(name, date). -/
structure ActionRow where
  name : String
  date : Nat
  count : Int
deriving DecidableEq, Repr

/-- One stored row of the `mirrored_messages` table (`db.py`, class
MirroredMessages), with UNIQUE(admin_chat_id, admin_msg_id). -/
structure MirrorRow where
  admin_chat_id : Int
  admin_msg_id : Int
  user_chat_id : Int
  user_msg_id : Int
  thread_id : Option Int
deriving DecidableEq, Repr

/-- One stored row of the `messages_to_delete` table (`db.py`, class
MessagesToDelete), with UNIQUE(chat_id, msg_id).  `id` is the integer
primary key used by the `remove` method. -/
structure DelRow where
  id : Nat
  chat_id : Int
  msg_id : Int
  sent_at : Nat
  by_bot : Bool
deriving DecidableEq, Repr

/-- The durable store: the four tables the claims touch. -/
structure St where
  users : List UserRec
  actions : List ActionRow
  mirrors : List MirrorRow
  msgsToDel : List DelRow
deriving DecidableEq, Repr

/-- An inbound Telegram message, as much of it as the embedded code reads. -/
structure Msg where
  chat_id : Int
  message_id : Int
  date : Nat
  from_is_bot : Bool
  full_name : String
  username : Option String
deriving DecidableEq, Repr

/-! ## Persistence layer (`db.py`) -/

/-- `SqlTgUser.get(user=...)`: SELECT the first row with this user_id. -/
def tguser_get (users : List UserRec) (uid : Int) : Option UserRec :=
  users.find? (fun u => u.user_id == uid)

/-- `SqlTgUser.add`: DELETE every row with this user_id, then INSERT the
fresh record (delete-then-insert replace). -/
def tguser_add (users : List UserRec) (r : UserRec) : List UserRec :=
  users.filter (fun u => u.user_id != r.user_id) ++ [r]

/-- The kwargs that `SqlTgUser.update` can receive at the call sites the
claims exercise: each `some` field is written, `none` fields are left
untouched.  `user_msg` being supplied becomes `last_user_msg_at := some _`
(the method turns it into that kwarg itself). -/
structure UserUpdate where
  last_user_msg_at : Option Nat := none
  thread_id : Option Int := none
  first_replied : Option Bool := none
  can_message : Option Bool := none
  banned : Option Bool := none
  subject : Option String := none
deriving DecidableEq, Repr

def applyUpdate (k : UserUpdate) (u : UserRec) : UserRec :=
  { u with
    last_user_msg_at := k.last_user_msg_at.getD u.last_user_msg_at
    thread_id := match k.thread_id with | some t => some t | none => u.thread_id
    first_replied := k.first_replied.getD u.first_replied
    can_message := k.can_message.getD u.can_message
    banned := k.banned.getD u.banned
    subject := match k.subject with | some s => some s | none => u.subject }

/-- `SqlTgUser.update`: UPDATE ... WHERE user_id = uid. -/
def tguser_update (users : List UserRec) (uid : Int) (k : UserUpdate) :
    List UserRec :=
  users.map (fun u => if u.user_id == uid then applyUpdate k u else u)

/-- `SqlAction.add(name)`: INSERT {name, today, count=1}; on the
IntegrityError from UNIQUE(name, date) fall back to
UPDATE count := count + 1 WHERE name AND date match. -/
def action_add (rows : List ActionRow) (name : String) (today : Nat) :
    List ActionRow :=
  if rows.any (fun r => r.name == name && r.date == today) then
    rows.map (fun r =>
      if r.name == name && r.date == today then { r with count := r.count + 1 }
      else r)
  else
    rows ++ [⟨name, today, 1⟩]

/-- Stored total for one (name, date) counter key. -/
def actionCount (rows : List ActionRow) (name : String) (today : Nat) : Int :=
  ((rows.filter (fun r => r.name == name && r.date == today)).map
    (fun r => r.count)).sum

/-- Number of stored rows for one (name, date) counter key. -/
def actionRows (rows : List ActionRow) (name : String) (today : Nat) : Nat :=
  (rows.filter (fun r => r.name == name && r.date == today)).length

/-- `SqlMirroredMessages.add`: INSERT OR REPLACE keyed by
UNIQUE(admin_chat_id, admin_msg_id) — SQLite deletes any conflicting
row, then inserts the new one. -/
def msgmirror_add (rows : List MirrorRow) (r : MirrorRow) : List MirrorRow :=
  rows.filter (fun m =>
    !(m.admin_chat_id == r.admin_chat_id && m.admin_msg_id == r.admin_msg_id))
    ++ [r]

/-- `SqlMirroredMessages.get`: SELECT the row for the admin-side key. -/
def msgmirror_get (rows : List MirrorRow) (ac am : Int) : Option MirrorRow :=
  rows.find? (fun m => m.admin_chat_id == ac && m.admin_msg_id == am)

/-- `SqlMirroredMessages.delete`. -/
def msgmirror_delete (rows : List MirrorRow) (ac am : Int) : List MirrorRow :=
  rows.filter (fun m => !(m.admin_chat_id == ac && m.admin_msg_id == am))

/-- Rows stored under one admin-side mirror key. -/
def mirrorRowsFor (rows : List MirrorRow) (ac am : Int) : List MirrorRow :=
  rows.filter (fun m => m.admin_chat_id == ac && m.admin_msg_id == am)

/-- `SqlMessageToDelete.add`: INSERT; the IntegrityError from
UNIQUE(chat_id, msg_id) is swallowed (`pass`), so a duplicate key is a
no-op.  `nextId` stands for the autoincremented primary key. -/
def msgtodel_add (rows : List DelRow) (nextId : Nat) (chat_id msg_id : Int)
    (sent_at : Nat) (by_bot : Bool) : List DelRow :=
  if rows.any (fun r => r.chat_id == chat_id && r.msg_id == msg_id) then rows
  else rows ++ [⟨nextId, chat_id, msg_id, sent_at, by_bot⟩]

/-- `SqlMessageToDelete.get_many(before, by_bot)`. -/
def msgtodel_get_many (rows : List DelRow) (before : Nat) (by_bot : Bool) :
    List DelRow :=
  rows.filter (fun r => r.sent_at ≤ before && r.by_bot == by_bot)

/-- Body of the `remove` method found in `db.py` (defined on the
SqlMirroredMessages class): DELETE FROM messages_to_delete WHERE id IN ids. -/
def msgtodel_remove_body (rows : List DelRow) (msgs : List DelRow) :
    List DelRow :=
  let ids := msgs.map (fun m => m.id)
  if ids = [] then rows
  else rows.filter (fun r => !(ids.contains r.id))

/-- The method names defined on class `SqlMessageToDelete` in `db.py`
(including the inherited `SqlRepo.__init__`).  Python resolves
`bot.db.msgtodel.<attr>` against this set; a miss raises AttributeError. -/
def sqlMessageToDeleteMethods : List String := ["__init__", "add", "get_many"]

/-- The method names defined on class `SqlMirroredMessages` in `db.py`:
this is where `remove` actually lives. -/
def sqlMirroredMessagesMethods : List String :=
  ["__init__", "_ensure_table", "add", "get", "delete", "remove"]

/-- Key predicate of the UNIQUE(name, date) constraint on `actionstats`. -/
def actionKey (name : String) (today : Nat) : ActionRow → Bool :=
  fun r => r.name == name && r.date == today

/-- K successive calls of `SqlAction.add` for the same key. -/
def action_add_iter (rows : List ActionRow) (name : String) (today : Nat) :
    Nat → List ActionRow
  | 0 => rows
  | k + 1 => action_add (action_add_iter rows name today k) name today

/-! ## Handler embedding

Handlers become pure functions from a store `St` to a result `HRes` that
also carries the trace of gateway calls made (`Effect` list, in execution
order) and the exception the handler body raised, if any.  The remote
gateway's behaviour is an oracle `Gw`: each kind of call is assigned its
outcome up front (`none` = success for `Option TgExc`-valued calls). -/

/-- One observable call to the messaging gateway or the admin-stats
repository.  `forwardAttempt` is recorded for every `msg.forward` call,
failed or not; `createTopic` only when `create_forum_topic` succeeded. -/
inductive Effect where
  | sendMsg (chat : Int) (text : String)
  | sendDocument (chat : Int)
  | editMsgText (chat : Int) (msgId : Int)
  | editMsgCaption (chat : Int) (msgId : Int)
  | forwardAttempt (chat : Int) (thread : Int)
  | createTopic (thread : Int)
  | copyAttempt (chat : Int)
  | deleteAttempt (chat : Int) (msgId : Int)
  | dbUpdateUser (uid : Int)
  | bumpAdmin (adminId : Int) (field : String)
  | answeredCallback
deriving DecidableEq, Repr

/-- A node of the TOML menu tree (`menu.toml` / `admin_replies.toml`):
a Python dict whose scalar entries are the optional attributes below and
whose dict-valued entries are the children.  Scalar entries other than
these are not addressable as children in this model (the handlers never
address them on the paths the claims exercise). -/
inductive MenuItem where
  | node (label answer link file subject : Option String)
      (start_chat as_new_message : Bool)
      (children : List (String × MenuItem))

def MenuItem.label : MenuItem → Option String
  | .node l _ _ _ _ _ _ _ => l

def MenuItem.answer : MenuItem → Option String
  | .node _ a _ _ _ _ _ _ => a

def MenuItem.link : MenuItem → Option String
  | .node _ _ l _ _ _ _ _ => l

def MenuItem.file : MenuItem → Option String
  | .node _ _ _ f _ _ _ _ => f

def MenuItem.subject : MenuItem → Option String
  | .node _ _ _ _ s _ _ _ => s

def MenuItem.start_chat : MenuItem → Bool
  | .node _ _ _ _ _ sc _ _ => sc

def MenuItem.as_new_message : MenuItem → Bool
  | .node _ _ _ _ _ _ anm _ => anm

def MenuItem.children : MenuItem → List (String × MenuItem)
  | .node _ _ _ _ _ _ _ c => c

/-- `const.ButtonMode` (const.py is not under src/; the five values are
exactly the ones `Button._recognize_mode` in utils.py assigns). -/
inductive ButtonMode where
  | link | file | menu | subject | answer
deriving DecidableEq, Repr

/-- The configuration values the embedded handlers read (bot.py defaults /
env).  `first_reply` is always present in the default config; its Python
truthiness is `!= ""` here.  The two destruction windows are in hours. -/
structure Cfg where
  admin_group_id : Int
  hello_msg : String
  first_reply : String
  contact_gate_msg : Option String
  contact_unlocked_msg : Option String
  destruct_user_messages_for_user : Option Nat
  destruct_bot_messages_for_user : Option Nat

/-- The bot object: config plus the loaded menu documents and the files
directory listing (used by `send_file`). -/
structure Bot where
  cfg : Cfg
  menu : Option MenuItem
  admin_quick_replies : Option MenuItem
  files : List String

/-- Gateway oracle: the outcome of each kind of remote call.  `none`
means success.  `sentMsgId` is the message id the gateway assigns to
messages the bot sends, `copyMsgId` to copies, `now` the current time
(also the `date` of bot-sent messages). -/
structure Gw where
  send : Int → Option TgExc
  editText : Option TgExc
  editCaption : Option TgExc
  forward : Int → Option TgExc
  createTopicRes : Except TgExc Int
  copyRes : Except TgExc Int
  del : Int → Int → Option TgExc
  sentMsgId : Int
  now : Nat

/-- Result of one raw (unwrapped) handler body: the store and effect
trace at the moment the body returned or raised, and the raised
exception if any. -/
structure HRes where
  st : St
  effs : List Effect
  exc : Option TgExc
deriving DecidableEq, Repr

/-- The message object a bot send/answer call returns. -/
def sentMsgOf (gw : Gw) (chat : Int) : Msg :=
  { chat_id := chat, message_id := gw.sentMsgId, date := gw.now,
    from_is_bot := true, full_name := "", username := none }

/-- Autoincremented INTEGER PRIMARY KEY for `messages_to_delete`. -/
def nextRowId (rows : List DelRow) : Nat :=
  (rows.map (fun r => r.id)).foldr max 0 + 1

/-- `utils.save_for_destruction(msg, bot, chat_id=None)`: remember the
message for later destruction when the matching window is configured.
`none` messages are skipped (`if not msg: return`). -/
def save_for_destruction (bot : Bot) (st : St) (m : Option Msg) (now : Nat)
    (chat_id : Option Int) : St :=
  match m with
  | none => st
  | some msg =>
    match chat_id with
    | some cid =>
      if (bot.cfg.destruct_bot_messages_for_user).isSome then
        { st with msgsToDel :=
            (msgtodel_add st.msgsToDel (nextRowId st.msgsToDel) cid
              msg.message_id now true) }
      else st
    | none =>
      let window := if msg.from_is_bot then bot.cfg.destruct_bot_messages_for_user
        else bot.cfg.destruct_user_messages_for_user
      if window.isSome then
        { st with msgsToDel :=
            (msgtodel_add st.msgsToDel (nextRowId st.msgsToDel) msg.chat_id
              msg.message_id msg.date msg.from_is_bot) }
      else st

/-- `informing.save_user_message(msg, new_user, stat)`.  The Google-Sheets
sink is not configured in this model (both gsheets config values absent),
so only the action-counter increments remain. -/
def save_user_message (st : St) (today : Nat) (new_user stat : Bool) : St :=
  let st1 := if stat then
      { st with actions := action_add st.actions "user_message" today }
    else st
  if new_user then
    { st1 with actions := action_add st1.actions "new_user" today }
  else st1

/-- The global names defined in or imported into buttons.py (import list
lines 5-16 plus the module-level defs).  `CBD`, `_create_button`,
`_extract_answer` and `_get_kb_builder` are absent: they are defined in
utils.py (resp. callback_data.py for `CBD`) and buttons.py never imports
them, so every reference from inside buttons.py raises NameError at call
time. -/
def buttonsModuleNames : List String :=
  ["Path", "agtypes", "toml", "TelegramBadRequest", "CallbackData",
   "admin_broadcast_start", "del_old_topics", "MSG_TEXT_LIMIT", "AdminBtn",
   "ButtonMode", "MenuMode", "handle_error", "log", "create_user_topic",
   "save_for_destruction", "load_toml", "_find_menu_item", "user_btn_handler",
   "admin_btn_handler", "send_file", "set_subject",
   "edit_or_send_new_msg_with_keyboard", "send_new_msg_with_keyboard",
   "build_confirm_menu"]

/-- `buttons.send_new_msg_with_keyboard` (the version handlers.py and
topics.py import): send the text; when a menu document is supplied, the
keyboard attach evaluates the plain name `_get_kb_builder`, which never
resolves in buttons.py, so NameError is raised after the send but before
the `edit_message_text` call.  The resolved arm (dead, the name is
absent) would build the keyboard and edit the sent message. -/
def send_new_msg_with_keyboard (gw : Gw) (chat_id : Int) (text : String)
    (menu : Option MenuItem) : List Effect × Except TgExc Msg :=
  match gw.send chat_id with
  | some e => ([.sendMsg chat_id text], .error e)
  | none =>
    let sent := sentMsgOf gw chat_id
    match menu with
    | none => ([.sendMsg chat_id text], .ok sent)
    | some _ =>
      if buttonsModuleNames.contains "_get_kb_builder" then
        match gw.editText with
        | some e => ([.sendMsg chat_id text, .editMsgText chat_id sent.message_id],
            .error e)
        | none => ([.sendMsg chat_id text, .editMsgText chat_id sent.message_id],
            .ok sent)
      else
        ([.sendMsg chat_id text], .error (.nameError "_get_kb_builder"))

/-- `utils.make_user_info`: the introductory text posted into a fresh
topic.  Its exact content (bio, premium flags, ...) is irrelevant to the
claims; only that one message is sent. -/
def make_user_info (fullName : String) : String := fullName

/-- `topics.create_user_topic`: create a forum topic, post the user-info
message into it, drop the quick-reply keyboard when configured, and
return the new thread id.  Any failure propagates.  The quick-replies
arm lazily imports buttons.send_new_msg_with_keyboard and always passes
a truthy menu, so (per that function's model) it raises NameError on
`_get_kb_builder` right after sending the quick-replies header. -/
def create_user_topic (bot : Bot) (gw : Gw) (fullName : String) :
    List Effect × Except TgExc Int :=
  match gw.createTopicRes with
  | .error e => ([], .error e)
  | .ok tid =>
    let gid := bot.cfg.admin_group_id
    match gw.send gid with
    | some e => ([.createTopic tid, .sendMsg gid (make_user_info fullName)], .error e)
    | none =>
      match bot.admin_quick_replies with
      | none => ([.createTopic tid, .sendMsg gid (make_user_info fullName)], .ok tid)
      | some qr =>
        let (effs, r) := send_new_msg_with_keyboard gw gid
          "⚡ Быстрые ответы для оператора" (some qr)
        match r with
        | .error e => ([.createTopic tid, .sendMsg gid (make_user_info fullName)]
            ++ effs, .error e)
        | .ok _ => ([.createTopic tid, .sendMsg gid (make_user_info fullName)]
            ++ effs, .ok tid)

/-- Lines 126-132 of handlers.py — the tail of `user_message` after the
message has been forwarded: send the first-contact welcome when it has
not been sent yet, then perform the single combined `tguser.update` that
records the message timestamp, the (possibly new) thread id, and the
`first_replied` flag, then `save_user_message(msg)` (stat counter) and
`save_for_destruction(msg)`. -/
def user_message_tail (bot : Bot) (gw : Gw) (m : Msg) (today : Nat)
    (u : UserRec) (tid : Int) (st : St) (effs : List Effect) : HRes :=
  if u.first_replied then
    let st1 := { st with users := (tguser_update st.users m.chat_id
        { last_user_msg_at := some m.date, thread_id := some tid }) }
    let st2 := save_user_message st1 today false true
    let st3 := save_for_destruction bot st2 (some m) gw.now none
    { st := st3, effs := effs ++ [.dbUpdateUser m.chat_id], exc := none }
  else
    if bot.cfg.first_reply ≠ "" then
      match gw.send m.chat_id with
      | some e =>
        { st := st,
          effs := effs ++ [.sendMsg m.chat_id bot.cfg.first_reply],
          exc := some e }
      | none =>
        let sent := sentMsgOf gw m.chat_id
        let st1 := save_for_destruction bot st (some sent) gw.now none
        let st2 := { st1 with users := (tguser_update st1.users m.chat_id
            { last_user_msg_at := some m.date, thread_id := some tid,
              first_replied := some true }) }
        let st3 := save_user_message st2 today false true
        let st4 := save_for_destruction bot st3 (some m) gw.now none
        { st := st4, effs := effs ++ [.sendMsg m.chat_id bot.cfg.first_reply,
            .dbUpdateUser m.chat_id], exc := none }
    else
      let st1 := { st with users := (tguser_update st.users m.chat_id
          { last_user_msg_at := some m.date, thread_id := some tid,
            first_replied := some true }) }
      let st2 := save_user_message st1 today false true
      let st3 := save_for_destruction bot st2 (some m) gw.now none
      { st := st3, effs := effs ++ [.dbUpdateUser m.chat_id], exc := none }

/-- handlers.user_message, raw body (before the `handle_error` wrapper).
Gate/ban dispatch, forward with thread-loss recovery, record upkeep.
The `tguser0 = none` arm of the gate-open section embeds the source's
lines 134-140, although `can_message = true` already implies the record
exists.  A `thread_id` of Python `None` is `none` here (the id-0-falsy
corner of the walrus test never occurs: Telegram thread ids are
positive). -/
def user_message (bot : Bot) (gw : Gw) (m : Msg) (today : Nat) (st : St) :
    HRes :=
  let gid := bot.cfg.admin_group_id
  let uid := m.chat_id
  let tguser0 := tguser_get st.users uid
  if (tguser0.map (fun u => u.banned)).getD false then
    let st1 := save_user_message st today false false
    let st2 := save_for_destruction bot st1 (some m) gw.now none
    { st := st2, effs := [], exc := none }
  else
    let can_message := (tguser0.map (fun u => u.can_message)).getD false
    if !can_message then
      let new_user := tguser0.isNone
      let gate_msg := (bot.cfg.contact_gate_msg).getD ""
      let (effs1, sres) := send_new_msg_with_keyboard gw uid gate_msg bot.menu
      match sres with
      | .error e => { st := st, effs := effs1, exc := some e }
      | .ok sentmsg =>
        let st1 := if tguser0.isNone then
            { st with users := (tguser_add st.users
                { user_id := uid, full_name := m.full_name,
                  username := m.username, thread_id := none,
                  last_user_msg_at := m.date, subject := none, banned := false,
                  first_replied := false, can_message := false }) }
          else st
        let st2 := save_user_message st1 today new_user false
        let st3 := save_for_destruction bot st2 (some m) gw.now none
        let st4 := save_for_destruction bot st3 (some sentmsg) gw.now none
        { st := st4, effs := effs1, exc := none }
    else
      match tguser0 with
      | some u =>
        match u.thread_id with
        | some t =>
          match gw.forward t with
          | none => user_message_tail bot gw m today u t st [.forwardAttempt gid t]
          | some (.badRequest emsg) =>
            if containsSub (pyLower emsg) "thread not found" then
              match create_user_topic bot gw m.full_name with
              | (effs2, .error e) =>
                { st := st, effs := .forwardAttempt gid t :: effs2, exc := some e }
              | (effs2, .ok t2) =>
                match gw.forward t2 with
                | none => user_message_tail bot gw m today u t2 st
                    (.forwardAttempt gid t :: effs2 ++ [.forwardAttempt gid t2])
                | some e =>
                  { st := st,
                    effs := .forwardAttempt gid t :: effs2 ++ [.forwardAttempt gid t2],
                    exc := some e }
            else
              -- a TelegramBadRequest whose text lacks "thread not found":
              -- the except block falls through without re-raising, so the
              -- handler continues as if the forward had succeeded
              user_message_tail bot gw m today u t st [.forwardAttempt gid t]
          | some e => { st := st, effs := [.forwardAttempt gid t], exc := some e }
        | none =>
          match create_user_topic bot gw m.full_name with
          | (effs2, .error e) => { st := st, effs := effs2, exc := some e }
          | (effs2, .ok t2) =>
            match gw.forward t2 with
            | none => user_message_tail bot gw m today u t2 st
                (effs2 ++ [.forwardAttempt gid t2])
            | some e =>
              { st := st, effs := effs2 ++ [.forwardAttempt gid t2],
                exc := some e }
      | none =>
        match create_user_topic bot gw m.full_name with
        | (effs2, .error e) => { st := st, effs := effs2, exc := some e }
        | (effs2, .ok t2) =>
          let freshRec : UserRec :=
            { user_id := uid, full_name := m.full_name, username := m.username,
              thread_id := some t2, last_user_msg_at := m.date, subject := none,
              banned := false, first_replied := true, can_message := true }
          if bot.cfg.first_reply ≠ "" then
            match gw.send uid with
            | some e =>
              { st := st,
                effs := effs2 ++ [.sendMsg uid bot.cfg.first_reply],
                exc := some e }
            | none =>
              let st1 := save_for_destruction bot st (some (sentMsgOf gw uid))
                gw.now none
              let st2 := { st1 with users := tguser_add st1.users freshRec }
              match gw.forward t2 with
              | some e =>
                { st := st2,
                  effs := effs2 ++ [.sendMsg uid bot.cfg.first_reply,
                    .forwardAttempt gid t2],
                  exc := some e }
              | none =>
                let st3 := save_user_message st2 today false true
                let st4 := save_for_destruction bot st3 (some m) gw.now none
                { st := st4,
                  effs := effs2 ++ [.sendMsg uid bot.cfg.first_reply,
                    .forwardAttempt gid t2],
                  exc := none }
          else
            let st2 := { st with users := tguser_add st.users freshRec }
            match gw.forward t2 with
            | some e =>
              { st := st2, effs := effs2 ++ [.forwardAttempt gid t2],
                exc := some e }
            | none =>
              let st3 := save_user_message st2 today false true
              let st4 := save_for_destruction bot st3 (some m) gw.now none
              { st := st4, effs := effs2 ++ [.forwardAttempt gid t2], exc := none }

/-- Result of a wrapped handler: `handle_error` never re-raises, so there
is no exception slot; `logged` records a `bot.log_error` call (the
generic `except Exception` arm), the two report flags stand for the
messages the recoverable-condition arms send. -/
structure WRes where
  st : St
  effs : List Effect
  logged : Bool
  reportedUserBan : Bool
  reportedCantCreateTopic : Bool
deriving DecidableEq, Repr

/-- informing.handle_error: the decorator wrapping every top-level
handler.  Arms in source order: TelegramForbiddenError →
`report_user_ban` (which sends only for `admin_message` in a bound
thread); TelegramBadRequest → `report_cant_create_topic` only when the
message text contains the insufficient-rights marker, otherwise nothing
at all; any other Exception → `bot.log_error`. -/
def handle_error (funcIsAdminMessage threadBound : Bool) (r : HRes) : WRes :=
  match r.exc with
  | none => ⟨r.st, r.effs, false, false, false⟩
  | some .forbidden => ⟨r.st, r.effs, false, funcIsAdminMessage && threadBound, false⟩
  | some (.badRequest emsg) =>
    if containsSub emsg "not enough rights to create a topic" then
      ⟨r.st, r.effs, false, false, true⟩
    else
      ⟨r.st, r.effs, false, false, false⟩
  | some _ => ⟨r.st, r.effs, true, false, false⟩

/-- The global names defined in or imported into handlers.py (import
list lines 1-25 plus the module-level defs).  `_new_topic` is absent:
it is defined in utils.py and handlers.py never imports it. -/
def handlersModuleNames : List String :=
  ["datetime", "agtypes", "Dispatcher", "TelegramBadRequest", "Command",
   "buttons", "BroadcastForm", "admin_broadcast_ask_confirm",
   "admin_broadcast_finish", "admin_btn_handler", "send_new_msg_with_keyboard",
   "user_btn_handler", "CBD", "build_stats_report", "handle_error", "log",
   "save_admin_message", "save_user_message", "ACommandFilter",
   "BtnInAdminGroup", "BtnInAdminTopic", "BtnInPrivateChat", "BotMention",
   "InAdminGroup", "InAdminTopic", "GroupChatCreatedFilter",
   "NewChatMembersFilter", "PrivateChatFilter", "create_user_topic",
   "save_for_destruction", "cmd_start", "_group_hello", "added_to_group",
   "group_chat_created", "user_message", "admin_message",
   "mention_in_admin_group", "admin_quick_reply_handler",
   "_mirror_update_from_admin", "admin_message_edit", "admin_sync_message",
   "admin_delete_message", "admin_stats_command", "admin_ban_user",
   "admin_unban_user", "show_quick_replies", "register_handlers"]

/-- handlers.cmd_start, raw body.  After sending the hello message, the
new-user arm evaluates the plain name `_new_topic`; Python resolves it
against the handlers module globals (and builtins, where it clearly is
not), raising NameError before `db.tguser.add` is reached.  The resolved
arm (dead, since the name is absent) would run the `utils._new_topic`
body, which coincides with `create_user_topic`. -/
def cmd_start (bot : Bot) (gw : Gw) (m : Msg) (today : Nat) (st : St) : HRes :=
  let uid := m.chat_id
  let (effs1, sres) := send_new_msg_with_keyboard gw uid bot.cfg.hello_msg bot.menu
  match sres with
  | .error e => { st := st, effs := effs1, exc := some e }
  | .ok sentmsg =>
    if (tguser_get st.users uid).isNone then
      if handlersModuleNames.contains "_new_topic" then
        match create_user_topic bot gw m.full_name with
        | (effs2, .error e) => { st := st, effs := effs1 ++ effs2, exc := some e }
        | (effs2, .ok tid) =>
          let st1 := { st with users := (tguser_add st.users
              { user_id := uid, full_name := m.full_name, username := m.username,
                thread_id := some tid, last_user_msg_at := m.date, subject := none,
                banned := false, first_replied := false, can_message := false }) }
          let st2 := save_user_message st1 today true false
          let st3 := save_for_destruction bot st2 (some m) gw.now none
          let st4 := save_for_destruction bot st3 (some sentmsg) gw.now none
          { st := st4, effs := effs1 ++ effs2, exc := none }
      else
        { st := st, effs := effs1, exc := some (.nameError "_new_topic") }
    else
      let st1 := save_user_message st today false false
      let st2 := save_for_destruction bot st1 (some m) gw.now none
      let st3 := save_for_destruction bot st2 (some sentmsg) gw.now none
      { st := st3, effs := effs1, exc := none }

/-- `const.MSG_TEXT_LIMIT` (const.py is not under src/).  Only used to
truncate button texts; its exact value is immaterial to the claims. -/
def MSG_TEXT_LIMIT : Nat := 4096

/-- utils._extract_answer. -/
def _extract_answer (menu : MenuItem) (empty : Bool) : String :=
  let answer := (menu.answer.getD "").take MSG_TEXT_LIMIT
  if empty then answer else (if answer = "" then "👀" else answer)

/-- utils.Button._recognize_mode, in source branch order.  `none` means
no branch matched, in which case reading `self.mode` in `Button.__init__`
raises AttributeError. -/
def _recognize_mode (c : MenuItem) : Option ButtonMode :=
  if c.link.isSome then some .link
  else if c.file.isSome then some .file
  else if c.children.any (fun kv => kv.2.label.isSome) then some .menu
  else if c.subject.isSome then some .subject
  else if c.answer.isSome then some .answer
  else none

/-- utils.Button, the fields the handlers read. -/
structure Button where
  content : MenuItem
  mode : ButtonMode
  answer : String

/-- utils._create_button: a Button when the node has a label, `none`
otherwise; raises AttributeError when no mode branch matched. -/
def _create_button (content : MenuItem) : Except TgExc (Option Button) :=
  if content.label.isSome then
    match _recognize_mode content with
    | none => .error (.attributeError "mode")
    | some md =>
      .ok (some
        { content := content, mode := md,
          answer := _extract_answer content (md == .link || md == .file) })
  else .ok none

/-- Dict lookup of a child node (`target.get(key)` restricted to
dict-valued entries). -/
def menu_child (item : MenuItem) (key : String) : Option MenuItem :=
  (item.children.find? (fun kv => kv.1 == key)).map (fun kv => kv.2)

/-- The path walk of buttons._find_menu_item: `target = target.get(code)`
per non-empty segment; when `target` has become `None`, the next `.get`
raises AttributeError. -/
def menu_walk : Option MenuItem → List String → Except TgExc (Option MenuItem)
  | t, [] => .ok t
  | some t, k :: rest => menu_walk (menu_child t k) rest
  | none, _ :: _ => .error (.attributeError "get")

/-- buttons._find_menu_item. -/
def _find_menu_item (menu : MenuItem) (path code : String) :
    Except TgExc (Option MenuItem) :=
  let segs := (pySplitDot path).filter (fun s => s ≠ "")
  match menu_walk (some menu) segs with
  | .error e => .error e
  | .ok none => .error (.attributeError "get")
  | .ok (some t) => .ok (menu_child t code)

/-- A callback query inside a private chat, as read by user_btn_handler:
the chat of `call.message` (the end user), that message, and the
unpacked callback data (path, code, msgid). -/
structure Call where
  chat_id : Int
  full_name : String
  username : Option String
  message_id : Int
  msg_date : Nat
  path : String
  code : String
  msgid : Int
deriving DecidableEq, Repr

/-- buttons.edit_or_send_new_msg_with_keyboard: its first statement
(line 153) evaluates `_extract_answer`, which never resolves in
buttons.py, so the function raises NameError before any gateway call.
The resolved arm (dead) would try the in-place edit, with only
TelegramBadRequest triggering the send-new fallback. -/
def edit_or_send_new_msg_with_keyboard (gw : Gw) (chat_id msgid : Int)
    (menu : MenuItem) : List Effect × Except TgExc Msg :=
  if buttonsModuleNames.contains "_extract_answer" then
    let text := _extract_answer menu false
    match gw.editText with
    | none =>
      ([.editMsgText chat_id msgid],
       .ok { chat_id := chat_id, message_id := msgid, date := gw.now,
             from_is_bot := true, full_name := "", username := none })
    | some (.badRequest _) =>
      let (effs, r) := send_new_msg_with_keyboard gw chat_id text (some menu)
      (.editMsgText chat_id msgid :: effs, r)
    | some e => ([.editMsgText chat_id msgid], .error e)
  else ([], .error (.nameError "_extract_answer"))

/-- buttons.send_file: when the file exists, the caption expression
(line 120) evaluates `_extract_answer`, unresolvable in buttons.py, so
NameError is raised before the document is sent; a missing file raises
FileNotFoundError as in the source. -/
def send_file (bot : Bot) (gw : Gw) (chat_id : Int) (menuitem : MenuItem) :
    List Effect × Except TgExc Msg :=
  match menuitem.file with
  | some f =>
    if bot.files.contains f then
      if buttonsModuleNames.contains "_extract_answer" then
        match gw.send chat_id with
        | some e => ([.sendDocument chat_id], .error e)
        | none => ([.sendDocument chat_id], .ok (sentMsgOf gw chat_id))
      else ([], .error (.nameError "_extract_answer"))
    else ([], .error (.otherError "FileNotFoundError"))
  | none => ([], .error (.otherError "KeyError"))

/-- buttons.set_subject. -/
def set_subject (bot : Bot) (gw : Gw) (user_id : Int) (menuitem : MenuItem)
    (st : St) : St × List Effect × Except TgExc Msg :=
  let newsubj := (menuitem.subject).getD ""
  let gid := bot.cfg.admin_group_id
  let answer0 := (menuitem.answer.getD "").take MSG_TEXT_LIMIT
  let answer := if answer0 = "" then
      "Please write your question about " ++ (menuitem.label).getD ""
    else answer0
  match gw.send user_id with
  | some e => (st, [.sendMsg user_id answer], .error e)
  | none =>
    let usrmsg := sentMsgOf gw user_id
    match tguser_get st.users user_id with
    | some tguser =>
      if tguser.thread_id.isSome && tguser.subject ≠ some newsubj then
        let st1 := { st with users := (tguser_update st.users user_id
            { subject := some newsubj }) }
        let effs := [.sendMsg user_id answer, .dbUpdateUser user_id,
          .sendMsg gid ("The user changed subject to " ++ newsubj)]
        match gw.send gid with
        | some e => (st1, effs, .error e)
        | none => (st1, effs, .ok usrmsg)
      else (st, [.sendMsg user_id answer], .ok usrmsg)
    | none => (st, [.sendMsg user_id answer], .ok usrmsg)

/-- Lines 77-87 of buttons.py — the delivery step of the answer branch:
send the text as a new message or edit the menu message in place, then
the two save_for_destruction calls and `call.answer()`. -/
def user_btn_answer_tail (bot : Bot) (gw : Gw) (call : Call)
    (mi : MenuItem) (btnAnswer : String) (st : St) (effs : List Effect)
    (unlocked_prompt : Option Msg) : HRes :=
  if mi.as_new_message then
    match gw.send call.chat_id with
    | some e =>
      { st := st, effs := effs ++ [.sendMsg call.chat_id btnAnswer],
        exc := some e }
    | none =>
      let sentmsg := sentMsgOf gw call.chat_id
      let st1 := save_for_destruction bot st (some sentmsg) gw.now none
      let st2 := save_for_destruction bot st1 unlocked_prompt gw.now none
      { st := st2,
        effs := effs ++ [.sendMsg call.chat_id btnAnswer, .answeredCallback],
        exc := none }
  else
    match gw.editText with
    | some e =>
      { st := st, effs := effs ++ [.editMsgText call.chat_id call.message_id],
        exc := some e }
    | none =>
      let st1 := save_for_destruction bot st unlocked_prompt gw.now none
      { st := st1,
        effs := effs ++ [.editMsgText call.chat_id call.message_id,
          .answeredCallback],
        exc := none }

/-- Lines 74-76 of buttons.py — after the start_chat record write: send
the contact-unlocked prompt when configured, then continue with the
delivery step. -/
def user_btn_unlocked_step (bot : Bot) (gw : Gw) (call : Call)
    (mi : MenuItem) (btnAnswer : String) (st : St) (effs : List Effect) :
    HRes :=
  match bot.cfg.contact_unlocked_msg with
  | some t =>
    match gw.send call.chat_id with
    | some e =>
      { st := st, effs := effs ++ [.sendMsg call.chat_id t], exc := some e }
    | none =>
      user_btn_answer_tail bot gw call mi btnAnswer st
        (effs ++ [.sendMsg call.chat_id t]) (some (sentMsgOf gw call.chat_id))
  | none => user_btn_answer_tail bot gw call mi btnAnswer st effs none

/-- The body buttons.user_btn_handler would run if its names resolved —
dead code in the program (see `user_btn_handler`): dispatch over the
resolved menu node, with the ButtonMode.answer branch carrying the
start_chat opt-in logic; a `link`-mode button matches no branch of the
elif chain.  The reference to `_create_button` (line 59), also
unresolvable in buttons.py, is gated by the same name-set lookup. -/
def user_btn_handler_resolved (bot : Bot) (gw : Gw) (call : Call) (st : St) :
    HRes :=
  match bot.menu with
  | none => { st := st, effs := [], exc := some (.attributeError "get") }
  | some menu =>
    match _find_menu_item menu call.path call.code with
    | .error e => { st := st, effs := [], exc := some e }
    | .ok menuitem =>
      if call.path = "" && call.code = "" then
        let (effs, r) := edit_or_send_new_msg_with_keyboard gw call.chat_id
          call.msgid menu
        match r with
        | .error e => { st := st, effs := effs, exc := some e }
        | .ok sentmsg =>
          let st1 := save_for_destruction bot st (some sentmsg) gw.now none
          { st := st1, effs := effs ++ [.answeredCallback], exc := none }
      else
        match menuitem with
        | none => { st := st, effs := [], exc := some (.otherError "TypeError") }
        | some mi =>
          if !(buttonsModuleNames.contains "_create_button") then
            { st := st, effs := [], exc := some (.nameError "_create_button") }
          else
          match _create_button mi with
          | .error e => { st := st, effs := [], exc := some e }
          | .ok none => { st := st, effs := [.answeredCallback], exc := none }
          | .ok (some btn) =>
            match btn.mode with
            | .menu =>
              let (effs, r) := edit_or_send_new_msg_with_keyboard gw
                call.chat_id call.msgid mi
              match r with
              | .error e => { st := st, effs := effs, exc := some e }
              | .ok sentmsg =>
                let st1 := save_for_destruction bot st (some sentmsg) gw.now none
                { st := st1, effs := effs ++ [.answeredCallback], exc := none }
            | .file =>
              let (effs, r) := send_file bot gw call.chat_id mi
              match r with
              | .error e => { st := st, effs := effs, exc := some e }
              | .ok sentmsg =>
                let st1 := save_for_destruction bot st (some sentmsg) gw.now none
                { st := st1, effs := effs ++ [.answeredCallback], exc := none }
            | .answer =>
              if mi.start_chat then
                match tguser_get st.users call.chat_id with
                | some _ =>
                  -- reset the flag so the user gets the first auto-reply again
                  let st1 := { st with users := (tguser_update st.users
                      call.chat_id
                      { first_replied := some false, can_message := some true }) }
                  user_btn_unlocked_step bot gw call mi btn.answer st1
                    [.dbUpdateUser call.chat_id]
                | none =>
                  let st1 := { st with users := (tguser_add st.users
                      { user_id := call.chat_id, full_name := call.full_name,
                        username := call.username, thread_id := none,
                        last_user_msg_at := call.msg_date, subject := none,
                        banned := false, first_replied := false,
                        can_message := true }) }
                  user_btn_unlocked_step bot gw call mi btn.answer st1 []
              else
                user_btn_answer_tail bot gw call mi btn.answer st [] none
            | .subject =>
              match set_subject bot gw call.chat_id mi st with
              | (st1, effs, .error e) => { st := st1, effs := effs, exc := some e }
              | (st1, effs, .ok sentmsg) =>
                let st2 := save_for_destruction bot st1 (some sentmsg) gw.now none
                { st := st2, effs := effs ++ [.answeredCallback], exc := none }
            | .link => { st := st, effs := [.answeredCallback], exc := none }

/-- buttons.user_btn_handler, raw body.  Its line 51 evaluates the plain
name `CBD`, which is neither defined in nor imported into buttons.py
(CBD lives in callback_data.py and utils.py), so every button tap raises
NameError before any menu lookup or store access — the start_chat
opt-in write at line 70 is unreachable. -/
def user_btn_handler (bot : Bot) (gw : Gw) (call : Call) (st : St) : HRes :=
  if buttonsModuleNames.contains "CBD" then
    user_btn_handler_resolved bot gw call st
  else { st := st, effs := [], exc := some (.nameError "CBD") }

/-- An admin-authored message inside a topic, as `admin_message_edit`
reads it. -/
structure AdminMsg where
  chat_id : Int
  message_id : Int
  text : Option String
  caption : Option String
  from_id : Int
  from_name : String
deriving DecidableEq, Repr

/-- The fallback half of handlers._mirror_update_from_admin (lines
247-262): copy the admin message anew, replace the mirror row with the
new copy id, best-effort delete the stale user-side copy (only
TelegramBadRequest is swallowed there), return False only when the copy
itself fails with TelegramBadRequest. -/
def mirror_edit_fallback (gw : Gw) (mapping : MirrorRow) (st : St)
    (effs : List Effect) : St × List Effect × Except TgExc Bool :=
  match gw.copyRes with
  | .error (.badRequest _) =>
    (st, effs ++ [.copyAttempt mapping.user_chat_id], .ok false)
  | .error e => (st, effs ++ [.copyAttempt mapping.user_chat_id], .error e)
  | .ok newId =>
    let st1 := { st with mirrors := (msgmirror_add st.mirrors
        { admin_chat_id := mapping.admin_chat_id,
          admin_msg_id := mapping.admin_msg_id,
          user_chat_id := mapping.user_chat_id, user_msg_id := newId,
          thread_id := mapping.thread_id }) }
    let effs1 := effs ++ [.copyAttempt mapping.user_chat_id,
      .deleteAttempt mapping.user_chat_id mapping.user_msg_id]
    match gw.del mapping.user_chat_id mapping.user_msg_id with
    | none => (st1, effs1, .ok true)
    | some (.badRequest _) => (st1, effs1, .ok true)
    | some e => (st1, effs1, .error e)

/-- handlers._mirror_update_from_admin: try the in-place edit of the
user-side copy (text, else caption); TelegramBadRequest triggers the
re-copy fallback; a message with neither text nor caption returns
False without touching anything. -/
def _mirror_update_from_admin (gw : Gw) (amsg : AdminMsg)
    (mapping : MirrorRow) (st : St) : St × List Effect × Except TgExc Bool :=
  match amsg.text with
  | some _ =>
    match gw.editText with
    | none =>
      (st, [.editMsgText mapping.user_chat_id mapping.user_msg_id], .ok true)
    | some (.badRequest _) =>
      mirror_edit_fallback gw mapping st
        [.editMsgText mapping.user_chat_id mapping.user_msg_id]
    | some e =>
      (st, [.editMsgText mapping.user_chat_id mapping.user_msg_id], .error e)
  | none =>
    match amsg.caption with
    | some _ =>
      match gw.editCaption with
      | none =>
        (st, [.editMsgCaption mapping.user_chat_id mapping.user_msg_id], .ok true)
      | some (.badRequest _) =>
        mirror_edit_fallback gw mapping st
          [.editMsgCaption mapping.user_chat_id mapping.user_msg_id]
      | some e =>
        (st, [.editMsgCaption mapping.user_chat_id mapping.user_msg_id], .error e)
    | none => (st, [], .ok false)

/-- handlers.admin_message_edit, raw body: look up the mirror row for the
edited admin message, push the edit, and bump the per-admin edit counter
only when `_mirror_update_from_admin` returned True.  The
`adminstats.bump` store write is recorded as a `bumpAdmin` effect (its
per-call +1 upsert discipline is the one proved for the action counters). -/
def admin_message_edit (gw : Gw) (amsg : AdminMsg) (st : St) : HRes :=
  match msgmirror_get st.mirrors amsg.chat_id amsg.message_id with
  | none => { st := st, effs := [], exc := none }
  | some mapping =>
    match _mirror_update_from_admin gw amsg mapping st with
    | (st1, effs, .error e) => { st := st1, effs := effs, exc := some e }
    | (st1, effs, .ok true) =>
      { st := st1, effs := effs ++ [.bumpAdmin amsg.from_id "edits"],
        exc := none }
    | (st1, effs, .ok false) => { st := st1, effs := effs, exc := none }

/-- Outcome of one `destruct_messages` run for one bot. -/
structure DestructRes where
  st : St
  errorsLogged : Nat
  deleted : List (Int × Int)
  exc : Option TgExc
deriving DecidableEq, Repr

/-- The inner loop of utils.destruct_messages over one category's due
entries: a failed gateway delete is logged only while `error_reported`
is still False (one `bot.log_error` per run per category), and never
stops the iteration. -/
def destruct_category (gw : Gw) (msgs : List DelRow) :
    Nat × List (Int × Int) :=
  let folded := msgs.foldl
    (fun (acc : Bool × Nat × List (Int × Int)) (msg : DelRow) =>
      match gw.del msg.chat_id msg.msg_id with
      | none => (acc.1, acc.2.1, acc.2.2 ++ [(msg.chat_id, msg.msg_id)])
      | some _ =>
        if acc.1 then acc else (true, acc.2.1 + 1, acc.2.2))
    (false, 0, [])
  (folded.2.1, folded.2.2)

/-- The second iteration of the `for var in ...` loop in
utils.destruct_messages (the bot-authored category), with the error and
deletion tallies of the first iteration carried in. -/
def destruct_second (bot : Bot) (gw : Gw) (st : St) (errs : Nat)
    (dels : List (Int × Int)) : DestructRes :=
  match bot.cfg.destruct_bot_messages_for_user with
  | some val =>
    let msgs := msgtodel_get_many st.msgsToDel (gw.now - val * 3600) true
    let r := destruct_category gw msgs
    if sqlMessageToDeleteMethods.contains "remove" then
      { st := { st with msgsToDel := msgtodel_remove_body st.msgsToDel msgs },
        errorsLogged := errs + r.1, deleted := dels ++ r.2, exc := none }
    else
      { st := st, errorsLogged := errs + r.1, deleted := dels ++ r.2,
        exc := some (.attributeError "remove") }
  | none => { st := st, errorsLogged := errs, deleted := dels, exc := none }

/-- utils.destruct_messages for one bot.  Each configured category lists
its due entries, deletes them best-effort with coalesced error logging,
and then calls `bot.db.msgtodel.remove(msgs)` — an attribute lookup on
class SqlMessageToDelete, which the run models faithfully: the name is
resolved against that class's method set. -/
def destruct_messages (bot : Bot) (gw : Gw) (st : St) : DestructRes :=
  match bot.cfg.destruct_user_messages_for_user with
  | some val =>
    let msgs := msgtodel_get_many st.msgsToDel (gw.now - val * 3600) false
    let r := destruct_category gw msgs
    if sqlMessageToDeleteMethods.contains "remove" then
      destruct_second bot gw
        { st with msgsToDel := msgtodel_remove_body st.msgsToDel msgs } r.1 r.2
    else
      { st := st, errorsLogged := r.1, deleted := r.2,
        exc := some (.attributeError "remove") }
  | none => destruct_second bot gw st 0 []

/-! ## Observation helpers for the claims -/

def countForwards (effs : List Effect) : Nat :=
  (effs.filter (fun e => match e with
    | .forwardAttempt _ _ => true | _ => false)).length

def countTopicCreations (effs : List Effect) : Nat :=
  (effs.filter (fun e => match e with
    | .createTopic _ => true | _ => false)).length

def countSends (effs : List Effect) (chat : Int) (text : String) : Nat :=
  (effs.filter (fun e => e == .sendMsg chat text)).length

def countBumps (effs : List Effect) (adminId : Int) (field : String) : Nat :=
  (effs.filter (fun e => e == .bumpAdmin adminId field)).length

def countCopies (effs : List Effect) (chat : Int) : Nat :=
  (effs.filter (fun e => e == .copyAttempt chat)).length

def countUpdates (effs : List Effect) (uid : Int) : Nat :=
  (effs.filter (fun e => e == .dbUpdateUser uid)).length

/-- The stored rows for one user id. -/
def userRows (users : List UserRec) (uid : Int) : List UserRec :=
  users.filter (fun u => u.user_id == uid)

/-- A sequence of inbound messages handled one after the other by
user_message (each wrapped run of the real bot); effect traces are
concatenated. -/
def run_user_messages (bot : Bot) (gw : Gw) (today : Nat) :
    List Msg → St → St × List Effect
  | [], st => (st, [])
  | m :: rest, st =>
    let r := user_message bot gw m today st
    let rec2 := run_user_messages bot gw today rest r.st
    (rec2.1, r.effs ++ rec2.2)

/-- The record `db.tguser.add(user, msg, first_replied=False,
can_message=False)` stores on the gate-closed path. -/
def gateRec (m : Msg) : UserRec :=
  { user_id := m.chat_id, full_name := m.full_name, username := m.username,
    thread_id := none, last_user_msg_at := m.date, subject := none,
    banned := false, first_replied := false, can_message := false }

/-! ## Concrete instances used by witnesses and counterexamples -/

def stEmpty : St := { users := [], actions := [], mirrors := [], msgsToDel := [] }

def cfgW : Cfg :=
  { admin_group_id := -100, hello_msg := "hi", first_reply := "welcome",
    contact_gate_msg := some "gate", contact_unlocked_msg := some "unlocked",
    destruct_user_messages_for_user := some 1,
    destruct_bot_messages_for_user := none }

def botW : Bot :=
  { cfg := cfgW, menu := none, admin_quick_replies := none, files := [] }

def gwOK : Gw :=
  { send := fun _ => none, editText := none, editCaption := none,
    forward := fun _ => none, createTopicRes := .ok 77, copyRes := .ok 500,
    del := fun _ _ => none, sentMsgId := 900, now := 10000 }

def mU : Msg :=
  { chat_id := 1, message_id := 10, date := 5000, from_is_bot := false,
    full_name := "Alice", username := some "alice" }

def mU2 : Msg :=
  { chat_id := 1, message_id := 11, date := 5100, from_is_bot := false,
    full_name := "Alice", username := some "alice" }

/-- A banned user record. -/
def uRecB : UserRec :=
  { user_id := 1, full_name := "Alice", username := some "alice",
    thread_id := some 5, last_user_msg_at := 100, subject := none,
    banned := true, first_replied := true, can_message := true }

def stC6 : St := { users := [uRecB], actions := [], mirrors := [], msgsToDel := [] }

/-- A store holding one due pending-deletion entry (sent at 100, not by
the bot), used against the configured one-hour user-message window. -/
def stC2 : St :=
  { users := [], actions := [], mirrors := [],
    msgsToDel := [⟨1, 5, 41, 100, false⟩] }

/-- A gate-open user bound to thread 5 with the welcome already sent. -/
def uRec3 : UserRec :=
  { user_id := 1, full_name := "Alice", username := some "alice",
    thread_id := some 5, last_user_msg_at := 100, subject := none,
    banned := false, first_replied := true, can_message := true }

def stC3 : St := { users := [uRec3], actions := [], mirrors := [], msgsToDel := [] }

/-- A gateway whose forward into thread 5 fails with a TelegramBadRequest
that is not the thread-not-found condition. -/
def gwBR : Gw :=
  { gwOK with forward := fun t =>
      if t == 5 then some (.badRequest "message can not be forwarded") else none }

/-- A raw handler result that raised a generic (non-Telegram) exception. -/
def hresNameErr : HRes :=
  { st := stEmpty, effs := [], exc := some (.nameError "x") }

/-- The "contact operator" button node: an answer-mode button with
start_chat set. -/
def miStart : MenuItem :=
  .node (some "✉️ Написать оператору") (some "Напишите ваш вопрос") none none
    none true false []

/-- A menu document holding the contact button under the key "contact". -/
def menuW : MenuItem :=
  .node none (some "hello") none none none false false [("contact", miStart)]

/-- The witness bot with the menu document loaded. -/
def botM : Bot :=
  { cfg := cfgW, menu := some menuW, admin_quick_replies := none, files := [] }

/-- A bot with a quick-reply document loaded (admin_replies.toml). -/
def botQR : Bot :=
  { cfg := cfgW, menu := none, admin_quick_replies := some menuW, files := [] }

/-- The callback query of the user tapping the contact button. -/
def callW : Call :=
  { chat_id := 1, full_name := "Alice", username := some "alice",
    message_id := 30, msg_date := 4000, path := "", code := "contact",
    msgid := 30 }

/-- Gateway whose forward into thread 5 fails with the thread-not-found
BadRequest; forwards into any other thread succeed. -/
def gwTNF : Gw :=
  { gwOK with
    forward := fun t =>
      if t == 5 then some (.badRequest "Bad Request: message thread not found")
      else none }

/-- Gateway whose forward into thread 5 fails with TelegramForbiddenError. -/
def gwFwd403 : Gw :=
  { gwOK with forward := fun t => if t == 5 then some .forbidden else none }

/-- A stored mirror row linking admin message (50, 60) to the user copy
(1, 200). -/
def mapW : MirrorRow :=
  { admin_chat_id := 50, admin_msg_id := 60, user_chat_id := 1,
    user_msg_id := 200, thread_id := some 5 }

def stC5 : St := { users := [], actions := [], mirrors := [mapW], msgsToDel := [] }

/-- An admin text edit of message (50, 60). -/
def amsgW : AdminMsg :=
  { chat_id := 50, message_id := 60, text := some "edited", caption := none,
    from_id := 9, from_name := "Op" }

/-- Gateway that rejects the in-place edit but accepts the re-copy. -/
def gwEditRej : Gw :=
  { gwOK with
    editText := some (.badRequest "message cant be edited")
    copyRes := .ok 300 }

/-- Gateway that rejects both the in-place edit and the re-copy. -/
def gwEditRej2 : Gw :=
  { gwOK with
    editText := some (.badRequest "message cant be edited")
    copyRes := .error (.badRequest "message cant be copied") }

lemma incr_preserves_actionKey (name : String) (today : Nat) (a : ActionRow) :
    actionKey name today
      (if a.name == name && a.date == today then { a with count := a.count + 1 }
       else a)
    = actionKey name today a := by
  by_cases h : (a.name == name && a.date == today) = true <;>
    simp [actionKey, h]

lemma filter_map_incr (rows : List ActionRow) (name : String) (today : Nat) :
    (rows.map (fun r =>
        if r.name == name && r.date == today then { r with count := r.count + 1 }
        else r)).filter (actionKey name today)
    = (rows.filter (actionKey name today)).map
        (fun r => { r with count := r.count + 1 }) := by
  induction rows with
  | nil => rfl
  | cons a t ih =>
    by_cases h : actionKey name today a = true
    · have h' : (a.name == name && a.date == today) = true := h
      simp only [List.map_cons, List.filter_cons, incr_preserves_actionKey, h, h',
        eq_self_iff_true, if_true, ih, List.map_cons]
      simp [actionKey, h']
    · have h' : ¬ ((a.name == name && a.date == today) = true) := h
      simp only [List.map_cons, List.filter_cons, incr_preserves_actionKey, h, h',
        ih]
      simp [actionKey]
      intro hn hd
      exact h' (by simp [hn, hd])

lemma action_iter_filter (rows : List ActionRow) (name : String) (today : Nat)
    (h : rows.filter (actionKey name today) = []) :
    ∀ k, 1 ≤ k →
      (action_add_iter rows name today k).filter (actionKey name today)
        = [⟨name, today, (k : Int)⟩] := by
  intro k hk
  induction k with
  | zero => omega
  | succ n ih =>
    rcases Nat.eq_or_lt_of_le hk with h1 | h1
    · -- n + 1 = 1: the very first increment inserts the fresh row
      have hn : n = 0 := by omega
      subst hn
      have hany : rows.any (fun r => r.name == name && r.date == today) = false := by
        rw [List.any_eq_false]
        intro a ha
        have := List.filter_eq_nil_iff.mp h a ha
        simpa [actionKey] using this
      simp only [action_add_iter, action_add, hany, Bool.false_eq_true,
        if_false, List.filter_append]
      rw [h]
      have hkey : actionKey name today ⟨name, today, 1⟩ = true := by
        simp [actionKey]
      simp only [List.nil_append, List.filter_cons, hkey, eq_self_iff_true, if_true,
        List.filter_nil, Nat.zero_add, Nat.cast_one]
    · -- n ≥ 1: the key row exists, the IntegrityError fallback adds one
      have hn : 1 ≤ n := by omega
      have ihn := ih hn
      have hany : (action_add_iter rows name today n).any
          (fun r => r.name == name && r.date == today) = true := by
        rw [List.any_eq_true]
        have hmm : (⟨name, today, (n : Int)⟩ : ActionRow)
            ∈ (action_add_iter rows name today n).filter (actionKey name today) := by
          rw [ihn]; exact List.mem_singleton.mpr rfl
        rcases List.mem_filter.mp hmm with ⟨hmem, hkey⟩
        exact ⟨_, hmem, by simpa [actionKey] using hkey⟩
      simp only [action_add_iter, action_add, hany, if_true]
      rw [filter_map_incr, ihn]
      have hcast : ((n : Int) + 1) = ((n + 1 : Nat) : Int) := by push_cast; ring
      show [(⟨name, today, (n : Int) + 1⟩ : ActionRow)]
          = [⟨name, today, ((n + 1 : Nat) : Int)⟩]
      rw [hcast]

/-- C4: K sequential `action.add` calls for a (kind, day) key with no
pre-existing row leave exactly one stored row whose count is exactly K;
the first call takes the plain-INSERT branch and every later call takes
the IntegrityError fallback to the additive UPDATE (both branches are the
two arms of `action_add`). -/
theorem action_counter_k_increments (rows : List ActionRow) (name : String)
    (today : Nat) (K : Nat) (h0 : actionRows rows name today = 0)
    (hK : 1 ≤ K) :
    actionRows (action_add_iter rows name today K) name today = 1 ∧
    actionCount (action_add_iter rows name today K) name today = (K : Int) := by
  have hfil : rows.filter (actionKey name today) = [] := by
    have := h0
    unfold actionRows at this
    rcases List.eq_nil_of_length_eq_zero this with h'
    simpa [actionKey] using h'
  have hmain := action_iter_filter rows name today hfil K hK
  constructor
  · unfold actionRows
    rw [show (fun r : ActionRow => r.name == name && r.date == today)
          = actionKey name today from rfl, hmain]
    rfl
  · unfold actionCount
    rw [show (fun r : ActionRow => r.name == name && r.date == today)
          = actionKey name today from rfl, hmain]
    simp

theorem action_counter_k_increments_witness :
    actionRows [] "new_user" 0 = 0 ∧ 1 ≤ 3 ∧
    actionRows (action_add_iter [] "new_user" 0 3) "new_user" 0 = 1 ∧
    actionCount (action_add_iter [] "new_user" 0 3) "new_user" 0 = (3 : Int) :=
  ⟨by decide, by decide,
    action_counter_k_increments [] "new_user" 0 3 (by decide) (by decide)⟩

/-- C8: two `mirror.add` calls with the same (admin_chat_id, admin_msg_id)
key but different user_msg_id leave exactly one row for that key, holding
the second call's fields (INSERT OR REPLACE semantics). -/
theorem mirror_add_twice_replaces (rows : List MirrorRow) (r1 r2 : MirrorRow)
    (hc : r1.admin_chat_id = r2.admin_chat_id)
    (hm : r1.admin_msg_id = r2.admin_msg_id)
    (hdiff : r1.user_msg_id ≠ r2.user_msg_id) :
    mirrorRowsFor (msgmirror_add (msgmirror_add rows r1) r2)
      r2.admin_chat_id r2.admin_msg_id = [r2] := by
  have hP1 : (fun m : MirrorRow =>
      !(m.admin_chat_id == r1.admin_chat_id && m.admin_msg_id == r1.admin_msg_id))
      = (fun m : MirrorRow =>
      !(m.admin_chat_id == r2.admin_chat_id && m.admin_msg_id == r2.admin_msg_id)) := by
    funext m; rw [hc, hm]
  have hnil : ∀ l : List MirrorRow,
      ((l.filter (fun m =>
        !(m.admin_chat_id == r2.admin_chat_id && m.admin_msg_id == r2.admin_msg_id))).filter
        (fun m => m.admin_chat_id == r2.admin_chat_id && m.admin_msg_id == r2.admin_msg_id)) = [] := by
    intro l
    rw [List.filter_eq_nil_iff]
    intro a ha
    have hkeep := (List.mem_filter.mp ha).2
    simp only [Bool.not_eq_true'] at hkeep
    simp [hkeep]
  unfold mirrorRowsFor msgmirror_add
  rw [hP1]
  simp only [List.filter_append]
  rw [hnil, hnil]
  simp [hc, hm]

/-- C2: the intended behaviour — iterate a destruction category, coalesce
delete errors, then remove the listed entries via
`pending_deletion.remove(entries)` — breaks at the removal step: the
call site is `bot.db.msgtodel.remove(msgs)` but class SqlMessageToDelete
defines no `remove` (the method body sits on SqlMirroredMessages), so
with the user-message window configured and one due entry the run
deletes the message, logs nothing, and then raises AttributeError with
the entry still queued. -/
theorem destruct_messages_hits_attribute_error :
    sqlMessageToDeleteMethods.contains "remove" = false ∧
    sqlMirroredMessagesMethods.contains "remove" = true ∧
    (destruct_messages botW gwOK stC2).deleted = [(5, 41)] ∧
    (destruct_messages botW gwOK stC2).errorsLogged = 0 ∧
    (destruct_messages botW gwOK stC2).exc
      = some (TgExc.attributeError "remove") ∧
    (destruct_messages botW gwOK stC2).st.msgsToDel = stC2.msgsToDel := by
  decide

/-- C9 counterexample: a TelegramBadRequest whose text is not the
insufficient-rights condition is neither the user-blocked-bot nor the
rights condition, yet the wrapper swallows it without any
`bot.log_error` call — against the claim that every non-enumerated
exception is logged with full detail. -/
theorem handle_error_unlogged_bad_request :
    (TgExc.badRequest "message not modified" ≠ TgExc.forbidden) ∧
    containsSub "message not modified"
      "not enough rights to create a topic" = false ∧
    handle_error false false
      { st := stEmpty, effs := [],
        exc := some (.badRequest "message not modified") }
      = { st := stEmpty, effs := [], logged := false,
          reportedUserBan := false, reportedCantCreateTopic := false } := by
  decide

/-- C9 (amended): every exception raised in a wrapped handler is caught
and the wrapper returns normally with the store and effects as the body
left them; an exception that is neither TelegramForbiddenError nor a
TelegramBadRequest is logged with full detail; a TelegramBadRequest
whose text lacks the insufficient-rights marker is silently discarded —
caught, not logged, no report sent. -/
theorem handle_error_policy (fa tb : Bool) (r : HRes) :
    ((handle_error fa tb r).st = r.st ∧ (handle_error fa tb r).effs = r.effs) ∧
    (∀ e, r.exc = some e →
      ((∀ s, e ≠ TgExc.badRequest s) → e ≠ TgExc.forbidden →
        (handle_error fa tb r).logged = true) ∧
      (∀ s, e = TgExc.badRequest s →
        containsSub s "not enough rights to create a topic" = false →
        (handle_error fa tb r).logged = false ∧
        (handle_error fa tb r).reportedCantCreateTopic = false)) := by
  obtain ⟨st, effs, exc⟩ := r
  refine ⟨?_, ?_⟩
  · cases exc with
    | none => exact ⟨rfl, rfl⟩
    | some e =>
      cases e with
      | forbidden => exact ⟨rfl, rfl⟩
      | badRequest s =>
        simp only [handle_error]
        split <;> exact ⟨rfl, rfl⟩
      | nameError n => exact ⟨rfl, rfl⟩
      | attributeError a => exact ⟨rfl, rfl⟩
      | otherError s => exact ⟨rfl, rfl⟩
  · intro e he
    cases exc with
    | none => exact absurd he (by simp)
    | some e2 =>
      have he2 : e2 = e := Option.some.inj he
      subst he2
      constructor
      · intro hnb hnf
        cases e2 with
        | forbidden => exact absurd rfl hnf
        | badRequest s => exact absurd rfl (hnb s)
        | nameError n => rfl
        | attributeError a => rfl
        | otherError s => rfl
      · intro s hs hmarker
        subst hs
        simp [handle_error, hmarker]

theorem handle_error_policy_witness :
    hresNameErr.exc = some (TgExc.nameError "x") ∧
    (handle_error false false hresNameErr).logged = true :=
  ⟨rfl, (((handle_error_policy false false hresNameErr).2
      (TgExc.nameError "x") rfl).1 (fun s h => by cases h) (by intro h; cases h))⟩

/-- C10 counterexample: with a menu document loaded, /start from a new
user dies with NameError on `_get_kb_builder` inside
buttons.send_new_msg_with_keyboard — before the name `_new_topic` is
ever evaluated — and the hello message goes out without the menu (the
keyboard-attaching edit never happens), so the claim's mechanism (a
`_new_topic` name-resolution error after a hello-with-menu) fails at
this input. -/
theorem cmd_start_menu_precedes_new_topic :
    botM.menu = some menuW ∧
    tguser_get stEmpty.users mU.chat_id = none ∧
    (cmd_start botM gwOK mU 0 stEmpty).exc
      = some (TgExc.nameError "_get_kb_builder") ∧
    (cmd_start botM gwOK mU 0 stEmpty).exc
      ≠ some (TgExc.nameError "_new_topic") ∧
    (cmd_start botM gwOK mU 0 stEmpty).effs
      = [Effect.sendMsg 1 botM.cfg.hello_msg] ∧
    (cmd_start botM gwOK mU 0 stEmpty).st = stEmpty := by
  have h : (cmd_start botM gwOK mU 0 stEmpty).exc
      = some (TgExc.nameError "_get_kb_builder") := rfl
  refine ⟨rfl, rfl, h, ?_, rfl, rfl⟩
  rw [h]
  intro hcontra
  exact absurd (TgExc.nameError.inj (Option.some.inj hcontra)) (by decide)

/-- C10 (amended): a /start from a user with no record never reaches
db.tguser.add, and no record or thread is created: with no menu
document loaded the handler reaches the topic-creation step and raises
NameError on `_new_topic` (absent from handlers.py); with a menu loaded
it raises NameError on `_get_kb_builder` inside
buttons.send_new_msg_with_keyboard even earlier, so the hello message
is sent without the menu.  Either way the error wrapper logs the
failure and returns normally. -/
theorem cmd_start_never_reaches_add :
    handlersModuleNames.contains "_new_topic" = false ∧
    buttonsModuleNames.contains "_get_kb_builder" = false ∧
    (∀ (bot : Bot) (gw : Gw) (m : Msg) (today : Nat) (st : St),
      bot.menu = none →
      tguser_get st.users m.chat_id = none →
      gw.send m.chat_id = none →
      (cmd_start bot gw m today st).exc
          = some (TgExc.nameError "_new_topic") ∧
      (cmd_start bot gw m today st).st = st ∧
      countSends (cmd_start bot gw m today st).effs m.chat_id
        bot.cfg.hello_msg = 1 ∧
      countTopicCreations (cmd_start bot gw m today st).effs = 0 ∧
      (handle_error false false (cmd_start bot gw m today st)).logged
        = true) ∧
    (∀ (bot : Bot) (gw : Gw) (m : Msg) (today : Nat) (st : St)
        (menu : MenuItem),
      bot.menu = some menu →
      tguser_get st.users m.chat_id = none →
      gw.send m.chat_id = none →
      (cmd_start bot gw m today st).exc
          = some (TgExc.nameError "_get_kb_builder") ∧
      (cmd_start bot gw m today st).st = st ∧
      (cmd_start bot gw m today st).effs
          = [Effect.sendMsg m.chat_id bot.cfg.hello_msg] ∧
      countTopicCreations (cmd_start bot gw m today st).effs = 0 ∧
      (handle_error false false (cmd_start bot gw m today st)).logged
        = true) := by
  refine ⟨by decide, by decide, ?_, ?_⟩
  · intro bot gw m today st hmenu hno hsend
    have hmem : "_new_topic" ∉ handlersModuleNames := by decide
    simp [cmd_start, send_new_msg_with_keyboard, hmenu, hno, hsend, hmem,
      handle_error, countSends, countTopicCreations]
  · intro bot gw m today st menu hmenu hno hsend
    have hgkb : "_get_kb_builder" ∉ buttonsModuleNames := by decide
    simp [cmd_start, send_new_msg_with_keyboard, hmenu, hno, hsend, hgkb,
      handle_error, countTopicCreations]

theorem cmd_start_never_reaches_add_witness :
    (botW.menu = none ∧ botM.menu = some menuW ∧
      tguser_get stEmpty.users mU.chat_id = none ∧
      gwOK.send mU.chat_id = none) ∧
    ((cmd_start botW gwOK mU 0 stEmpty).exc
        = some (TgExc.nameError "_new_topic") ∧
      (cmd_start botW gwOK mU 0 stEmpty).st = stEmpty ∧
      countSends (cmd_start botW gwOK mU 0 stEmpty).effs mU.chat_id
        botW.cfg.hello_msg = 1 ∧
      countTopicCreations (cmd_start botW gwOK mU 0 stEmpty).effs = 0 ∧
      (handle_error false false (cmd_start botW gwOK mU 0 stEmpty)).logged
        = true) ∧
    ((cmd_start botM gwOK mU 0 stEmpty).exc
        = some (TgExc.nameError "_get_kb_builder") ∧
      (cmd_start botM gwOK mU 0 stEmpty).st = stEmpty ∧
      (cmd_start botM gwOK mU 0 stEmpty).effs
          = [Effect.sendMsg mU.chat_id botM.cfg.hello_msg] ∧
      countTopicCreations (cmd_start botM gwOK mU 0 stEmpty).effs = 0 ∧
      (handle_error false false (cmd_start botM gwOK mU 0 stEmpty)).logged
        = true) :=
  ⟨⟨rfl, rfl, rfl, rfl⟩,
    (cmd_start_never_reaches_add.2.2.1 botW gwOK mU 0 stEmpty rfl rfl rfl),
    (cmd_start_never_reaches_add.2.2.2 botM gwOK mU 0 stEmpty menuW rfl rfl
      rfl)⟩

theorem mirror_add_twice_replaces_witness :
    (⟨10, 20, 7, 100, some 5⟩ : MirrorRow).admin_chat_id
        = (⟨10, 20, 7, 200, some 5⟩ : MirrorRow).admin_chat_id ∧
    (⟨10, 20, 7, 100, some 5⟩ : MirrorRow).admin_msg_id
        = (⟨10, 20, 7, 200, some 5⟩ : MirrorRow).admin_msg_id ∧
    (⟨10, 20, 7, 100, some 5⟩ : MirrorRow).user_msg_id
        ≠ (⟨10, 20, 7, 200, some 5⟩ : MirrorRow).user_msg_id ∧
    mirrorRowsFor
      (msgmirror_add (msgmirror_add [] ⟨10, 20, 7, 100, some 5⟩)
        ⟨10, 20, 7, 200, some 5⟩) 10 20 = [⟨10, 20, 7, 200, some 5⟩] :=
  ⟨rfl, rfl, by decide,
    mirror_add_twice_replaces [] ⟨10, 20, 7, 100, some 5⟩ ⟨10, 20, 7, 200, some 5⟩
      rfl rfl (by decide)⟩

lemma save_for_destruction_users (bot : Bot) (st : St) (m : Option Msg)
    (now : Nat) (cid : Option Int) :
    (save_for_destruction bot st m now cid).users = st.users := by
  cases m with
  | none => rfl
  | some msg =>
    cases cid with
    | some c =>
      simp only [save_for_destruction]
      split <;> rfl
    | none =>
      simp only [save_for_destruction]
      split <;> split <;> rfl

lemma save_for_destruction_actions (bot : Bot) (st : St) (m : Option Msg)
    (now : Nat) (cid : Option Int) :
    (save_for_destruction bot st m now cid).actions = st.actions := by
  cases m with
  | none => rfl
  | some msg =>
    cases cid with
    | some c =>
      simp only [save_for_destruction]
      split <;> rfl
    | none =>
      simp only [save_for_destruction]
      split <;> split <;> rfl

lemma save_for_destruction_mirrors (bot : Bot) (st : St) (m : Option Msg)
    (now : Nat) (cid : Option Int) :
    (save_for_destruction bot st m now cid).mirrors = st.mirrors := by
  cases m with
  | none => rfl
  | some msg =>
    cases cid with
    | some c =>
      simp only [save_for_destruction]
      split <;> rfl
    | none =>
      simp only [save_for_destruction]
      split <;> split <;> rfl

lemma save_user_message_users (st : St) (today : Nat) (nu stt : Bool) :
    (save_user_message st today nu stt).users = st.users := by
  unfold save_user_message
  split <;> split <;> rfl

lemma save_user_message_noop (st : St) (today : Nat) :
    save_user_message st today false false = st := rfl

lemma countForwards_append (a b : List Effect) :
    countForwards (a ++ b) = countForwards a + countForwards b := by
  simp [countForwards, List.filter_append]

lemma countTopicCreations_append (a b : List Effect) :
    countTopicCreations (a ++ b)
      = countTopicCreations a + countTopicCreations b := by
  simp [countTopicCreations, List.filter_append]

lemma countSends_append (a b : List Effect) (chat : Int) (text : String) :
    countSends (a ++ b) chat text
      = countSends a chat text + countSends b chat text := by
  simp [countSends, List.filter_append]

lemma countUpdates_append (a b : List Effect) (uid : Int) :
    countUpdates (a ++ b) uid = countUpdates a uid + countUpdates b uid := by
  simp [countUpdates, List.filter_append]

/-- The banned arm of user_message: only the pending-deletion table can
change, no gateway call is made, no exception raised. -/
lemma user_message_banned_step (bot : Bot) (gw : Gw) (m : Msg) (today : Nat)
    (st : St) (u : UserRec) (hu : tguser_get st.users m.chat_id = some u)
    (hb : u.banned = true) :
    (user_message bot gw m today st).st.users = st.users ∧
    (user_message bot gw m today st).effs = [] ∧
    (user_message bot gw m today st).exc = none := by
  unfold user_message
  simp [hu, hb, save_for_destruction_users, save_user_message_noop]

/-- C6: once a user's record has banned=true, any number of subsequent
inbound messages from that user produce zero forwards and zero thread
creations, whatever the value of can_message; the user rows are left
untouched, so the ban persists across the whole sequence. -/
theorem ban_short_circuit (bot : Bot) (gw : Gw) (today : Nat) (uid : Int)
    (msgs : List Msg) (st : St) (u : UserRec)
    (hmsgs : ∀ m ∈ msgs, m.chat_id = uid)
    (hu : tguser_get st.users uid = some u) (hb : u.banned = true) :
    countForwards (run_user_messages bot gw today msgs st).2 = 0 ∧
    countTopicCreations (run_user_messages bot gw today msgs st).2 = 0 ∧
    (run_user_messages bot gw today msgs st).1.users = st.users := by
  have main : ∀ ms : List Msg, ∀ s : St, (∀ m ∈ ms, m.chat_id = uid) →
      tguser_get s.users uid = some u →
      countForwards (run_user_messages bot gw today ms s).2 = 0 ∧
      countTopicCreations (run_user_messages bot gw today ms s).2 = 0 ∧
      (run_user_messages bot gw today ms s).1.users = s.users := by
    intro ms
    induction ms with
    | nil =>
      intro s _ _
      simp [run_user_messages, countForwards, countTopicCreations]
    | cons m rest ih =>
      intro s hms hus
      have hm : m.chat_id = uid := hms m (by simp)
      have hstep := user_message_banned_step bot gw m today s u
        (by rw [hm]; exact hus) hb
      obtain ⟨husers, heffs, -⟩ := hstep
      have hrest := ih (user_message bot gw m today s).st
        (fun m2 h2 => hms m2 (by simp [h2]))
        (by rw [husers]; exact hus)
      obtain ⟨hf, hc, hs⟩ := hrest
      refine ⟨?_, ?_, ?_⟩
      · simp only [run_user_messages]
        rw [countForwards_append, heffs, hf]
        simp [countForwards]
      · simp only [run_user_messages]
        rw [countTopicCreations_append, heffs, hc]
        simp [countTopicCreations]
      · simp only [run_user_messages]
        rw [hs, husers]
  exact main msgs st hmsgs hu

theorem ban_short_circuit_witness :
    (∀ m ∈ [mU, mU2], m.chat_id = 1) ∧
    tguser_get stC6.users 1 = some uRecB ∧ uRecB.banned = true ∧
    (countForwards (run_user_messages botW gwOK 0 [mU, mU2] stC6).2 = 0 ∧
      countTopicCreations (run_user_messages botW gwOK 0 [mU, mU2] stC6).2 = 0 ∧
      (run_user_messages botW gwOK 0 [mU, mU2] stC6).1.users = stC6.users) :=
  ⟨by decide, rfl, rfl,
    ban_short_circuit botW gwOK 0 1 [mU, mU2] stC6 uRecB (by decide) rfl rfl⟩

lemma tguser_get_tguser_add (users : List UserRec) (r : UserRec) :
    tguser_get (tguser_add users r) r.user_id = some r := by
  unfold tguser_get tguser_add
  induction users with
  | nil => simp
  | cons a t ih =>
    by_cases h : (a.user_id != r.user_id) = true
    · have h2 : (a.user_id == r.user_id) = false := by
        simpa using h
      simp only [List.filter_cons, h, if_pos, List.cons_append,
        List.find?_cons, h2]
      exact ih
    · simp only [List.filter_cons, h, if_neg]
      simpa using ih

lemma userRows_tguser_add (users : List UserRec) (r : UserRec) :
    userRows (tguser_add users r) r.user_id = [r] := by
  unfold userRows tguser_add
  rw [List.filter_append]
  have h1 : (users.filter (fun u => u.user_id != r.user_id)).filter
      (fun u => u.user_id == r.user_id) = [] := by
    rw [List.filter_eq_nil_iff]
    intro a ha
    have hne := (List.mem_filter.mp ha).2
    simp only [bne_iff_ne, ne_eq] at hne
    simp [hne]
  rw [h1]
  simp

lemma action_add_count (rows : List ActionRow) (name : String) (today : Nat)
    (hwf : actionRows rows name today ≤ 1) :
    actionCount (action_add rows name today) name today
      = actionCount rows name today + 1 := by
  unfold actionCount action_add
  rw [show (fun r : ActionRow => r.name == name && r.date == today)
        = actionKey name today from rfl]
  by_cases hany : rows.any (actionKey name today) = true
  · rw [if_pos hany, filter_map_incr]
    have hpos : 0 < (rows.filter (actionKey name today)).length := by
      rcases List.any_eq_true.mp hany with ⟨x, hx, hpx⟩
      have hmem : x ∈ rows.filter (actionKey name today) :=
        List.mem_filter.mpr ⟨hx, hpx⟩
      exact List.length_pos.mpr (List.ne_nil_of_mem hmem)
    have hle : (rows.filter (actionKey name today)).length ≤ 1 := hwf
    have hone : (rows.filter (actionKey name today)).length = 1 := by omega
    obtain ⟨r0, hr0⟩ := List.length_eq_one.mp hone
    rw [hr0]
    simp
  · rw [if_neg hany]
    have hfalse : rows.any (actionKey name today) = false := by
      simpa using hany
    have hnil : rows.filter (actionKey name today) = [] := by
      rw [List.filter_eq_nil_iff]
      intro a ha
      exact List.any_eq_false.mp hfalse a ha
    rw [List.filter_append, hnil]
    simp [actionKey]

/-- The gate-closed arm for a user with no stored record, on a bot with
a menu document loaded: the gate prompt is sent, and then
buttons.send_new_msg_with_keyboard evaluates `_get_kb_builder` — absent
from buttons.py — so NameError aborts the handler before
db.tguser.add: the state is untouched and nothing is forwarded. -/
lemma user_message_gate_menu_step (bot : Bot) (gw : Gw) (m : Msg)
    (today : Nat) (st : St) (menu : MenuItem)
    (hmenu : bot.menu = some menu)
    (hno : tguser_get st.users m.chat_id = none)
    (hsend : gw.send m.chat_id = none) :
    (user_message bot gw m today st).st = st ∧
    (user_message bot gw m today st).exc
        = some (TgExc.nameError "_get_kb_builder") ∧
    countForwards (user_message bot gw m today st).effs = 0 ∧
    countTopicCreations (user_message bot gw m today st).effs = 0 := by
  have hgkb : "_get_kb_builder" ∉ buttonsModuleNames := by decide
  simp [user_message, send_new_msg_with_keyboard, hmenu, hno, hsend, hgkb,
    countForwards, countTopicCreations]

/-- C7 (code_bug): on a bot with a menu document loaded, any number of
gate-blocked messages from a never-opted-in user NEVER create a user
record and never bump the new-user counter: each message sends the gate
prompt and then dies with NameError on `_get_kb_builder` (absent from
buttons.py) inside buttons.send_new_msg_with_keyboard, before
db.tguser.add runs — so the state is unchanged after N messages and no
forward or topic creation ever happens, contradicting the claim's
"exactly one stored record, new-user bumped exactly once". -/
theorem gate_blocked_menu_name_error (bot : Bot) (gw : Gw) (today : Nat)
    (uid : Int) (msgs : List Msg) (st : St) (menu : MenuItem)
    (hmenu : bot.menu = some menu)
    (hmsgs : ∀ m ∈ msgs, m.chat_id = uid)
    (hno : tguser_get st.users uid = none)
    (hsend : gw.send uid = none) :
    buttonsModuleNames.contains "_get_kb_builder" = false ∧
    (∀ m ∈ msgs,
      (user_message bot gw m today st).st = st ∧
      (user_message bot gw m today st).exc
          = some (TgExc.nameError "_get_kb_builder")) ∧
    (run_user_messages bot gw today msgs st).1 = st ∧
    countForwards (run_user_messages bot gw today msgs st).2 = 0 ∧
    countTopicCreations (run_user_messages bot gw today msgs st).2 = 0 := by
  have main : ∀ ms : List Msg, (∀ m ∈ ms, m.chat_id = uid) →
      (run_user_messages bot gw today ms st).1 = st ∧
      countForwards (run_user_messages bot gw today ms st).2 = 0 ∧
      countTopicCreations (run_user_messages bot gw today ms st).2 = 0 := by
    intro ms
    induction ms with
    | nil =>
      intro _
      simp [run_user_messages, countForwards, countTopicCreations]
    | cons m rest ih =>
      intro hms
      have hm : m.chat_id = uid := hms m (by simp)
      have hstep := user_message_gate_menu_step bot gw m today st menu hmenu
        (by rw [hm]; exact hno) (by rw [hm]; exact hsend)
      obtain ⟨hsu, -, hsf, hsc⟩ := hstep
      have htail := ih (fun m2 h2 => hms m2 (by simp [h2]))
      obtain ⟨htu, htf, htc⟩ := htail
      refine ⟨?_, ?_, ?_⟩
      · simp only [run_user_messages]
        rw [hsu]
        exact htu
      · simp only [run_user_messages]
        rw [countForwards_append, hsf, hsu, htf]
      · simp only [run_user_messages]
        rw [countTopicCreations_append, hsc, hsu, htc]
  refine ⟨by decide, ?_, main msgs hmsgs⟩
  intro m hm
  have hstep := user_message_gate_menu_step bot gw m today st menu hmenu
    (by rw [hmsgs m hm]; exact hno) (by rw [hmsgs m hm]; exact hsend)
  exact ⟨hstep.1, hstep.2.1⟩

theorem gate_blocked_menu_name_error_witness :
    (botM.menu = some menuW ∧ (∀ m ∈ [mU, mU2], m.chat_id = 1) ∧
      tguser_get stEmpty.users 1 = none ∧ gwOK.send 1 = none) ∧
    (buttonsModuleNames.contains "_get_kb_builder" = false ∧
      (∀ m ∈ [mU, mU2],
        (user_message botM gwOK m 0 stEmpty).st = stEmpty ∧
        (user_message botM gwOK m 0 stEmpty).exc
            = some (TgExc.nameError "_get_kb_builder")) ∧
      (run_user_messages botM gwOK 0 [mU, mU2] stEmpty).1 = stEmpty ∧
      countForwards (run_user_messages botM gwOK 0 [mU, mU2] stEmpty).2
        = 0 ∧
      countTopicCreations
        (run_user_messages botM gwOK 0 [mU, mU2] stEmpty).2 = 0) :=
  ⟨⟨rfl, by decide, rfl, rfl⟩,
    gate_blocked_menu_name_error botM gwOK 0 1 [mU, mU2] stEmpty menuW rfl
      (by decide) rfl rfl⟩

lemma msgmirror_add_rowsFor (rows : List MirrorRow) (r : MirrorRow) :
    mirrorRowsFor (msgmirror_add rows r) r.admin_chat_id r.admin_msg_id
      = [r] := by
  unfold mirrorRowsFor msgmirror_add
  rw [List.filter_append]
  have h1 : (rows.filter (fun m =>
      !(m.admin_chat_id == r.admin_chat_id && m.admin_msg_id == r.admin_msg_id))).filter
      (fun m => m.admin_chat_id == r.admin_chat_id && m.admin_msg_id == r.admin_msg_id)
      = [] := by
    rw [List.filter_eq_nil_iff]
    intro a ha
    have hkeep := (List.mem_filter.mp ha).2
    simp only [Bool.not_eq_true'] at hkeep
    simp [hkeep]
  rw [h1]
  simp

lemma msgmirror_get_key (rows : List MirrorRow) (ac am : Int) (r : MirrorRow)
    (h : msgmirror_get rows ac am = some r) :
    r.admin_chat_id = ac ∧ r.admin_msg_id = am := by
  unfold msgmirror_get at h
  have := List.find?_some h
  constructor
  · have h1 := (Bool.and_elim_left this)
    simpa using h1
  · have h2 := (Bool.and_elim_right this)
    simpa using h2

/-- C5: the admin-edit counter discipline.  (a) When the in-place edit
is rejected (TelegramBadRequest) and the replacement copy succeeds,
exactly one new copy goes to the user, the mirror row for the admin key
now points at the new copy id, the stale user copy is delete-attempted
best-effort, and the edit counter is bumped exactly once.  (b) When the
in-place edit succeeds, the counter is bumped exactly once and no copy
is sent.  (c) When both the edit and the fallback copy fail, the counter
is not bumped at all.  (d) When no mirror entry exists, the handler does
nothing. -/
theorem admin_edit_counter_discipline :
    (∀ (gw : Gw) (amsg : AdminMsg) (st : St) (mapping : MirrorRow)
        (txt s : String) (newId : Int),
      msgmirror_get st.mirrors amsg.chat_id amsg.message_id = some mapping →
      amsg.text = some txt →
      gw.editText = some (.badRequest s) →
      gw.copyRes = .ok newId →
      (gw.del mapping.user_chat_id mapping.user_msg_id = none ∨
        (∃ s2, gw.del mapping.user_chat_id mapping.user_msg_id
          = some (.badRequest s2))) →
      countCopies (admin_message_edit gw amsg st).effs mapping.user_chat_id
          = 1 ∧
      mirrorRowsFor (admin_message_edit gw amsg st).st.mirrors
          amsg.chat_id amsg.message_id
        = [{ mapping with user_msg_id := newId }] ∧
      Effect.deleteAttempt mapping.user_chat_id mapping.user_msg_id
        ∈ (admin_message_edit gw amsg st).effs ∧
      countBumps (admin_message_edit gw amsg st).effs amsg.from_id "edits"
          = 1 ∧
      (admin_message_edit gw amsg st).exc = none) ∧
    (∀ (gw : Gw) (amsg : AdminMsg) (st : St) (mapping : MirrorRow)
        (txt : String),
      msgmirror_get st.mirrors amsg.chat_id amsg.message_id = some mapping →
      amsg.text = some txt → gw.editText = none →
      countBumps (admin_message_edit gw amsg st).effs amsg.from_id "edits"
          = 1 ∧
      countCopies (admin_message_edit gw amsg st).effs mapping.user_chat_id
          = 0 ∧
      (admin_message_edit gw amsg st).st = st ∧
      (admin_message_edit gw amsg st).exc = none) ∧
    (∀ (gw : Gw) (amsg : AdminMsg) (st : St) (mapping : MirrorRow)
        (txt s1 s2 : String),
      msgmirror_get st.mirrors amsg.chat_id amsg.message_id = some mapping →
      amsg.text = some txt →
      gw.editText = some (.badRequest s1) →
      gw.copyRes = .error (.badRequest s2) →
      countBumps (admin_message_edit gw amsg st).effs amsg.from_id "edits"
          = 0 ∧
      (admin_message_edit gw amsg st).st = st ∧
      (admin_message_edit gw amsg st).exc = none) ∧
    (∀ (gw : Gw) (amsg : AdminMsg) (st : St),
      msgmirror_get st.mirrors amsg.chat_id amsg.message_id = none →
      admin_message_edit gw amsg st = { st := st, effs := [], exc := none }) := by
  refine ⟨?_, ?_, ?_, ?_⟩
  · intro gw amsg st mapping txt s newId hget htxt hedit hcopy hdel
    obtain ⟨hk1, hk2⟩ := msgmirror_get_key st.mirrors amsg.chat_id
      amsg.message_id mapping hget
    have hrow :
        ({ admin_chat_id := mapping.admin_chat_id,
           admin_msg_id := mapping.admin_msg_id,
           user_chat_id := mapping.user_chat_id,
           user_msg_id := newId,
           thread_id := mapping.thread_id } : MirrorRow)
        = ({ mapping with user_msg_id := newId } : MirrorRow) := rfl
    have hrows := msgmirror_add_rowsFor st.mirrors
      ({ mapping with user_msg_id := newId })
    rcases hdel with hdel | ⟨s2, hdel⟩ <;>
      simp [admin_message_edit, hget, _mirror_update_from_admin, htxt, hedit,
        mirror_edit_fallback, hcopy, hdel, hrow, countCopies, countBumps,
        hk1, hk2] at hrows ⊢ <;>
      simpa [hk1, hk2] using hrows
  · intro gw amsg st mapping txt hget htxt hedit
    simp [admin_message_edit, hget, _mirror_update_from_admin, htxt, hedit,
      countCopies, countBumps]
  · intro gw amsg st mapping txt s1 s2 hget htxt hedit hcopy
    simp [admin_message_edit, hget, _mirror_update_from_admin, htxt, hedit,
      mirror_edit_fallback, hcopy, countBumps]
  · intro gw amsg st hget
    simp [admin_message_edit, hget]

theorem admin_edit_counter_discipline_witness :
    (countCopies (admin_message_edit gwEditRej amsgW stC5).effs 1 = 1 ∧
      mirrorRowsFor (admin_message_edit gwEditRej amsgW stC5).st.mirrors 50 60
        = [{ mapW with user_msg_id := 300 }] ∧
      countBumps (admin_message_edit gwEditRej amsgW stC5).effs 9 "edits" = 1) ∧
    (countBumps (admin_message_edit gwOK amsgW stC5).effs 9 "edits" = 1 ∧
      countCopies (admin_message_edit gwOK amsgW stC5).effs 1 = 0) ∧
    (countBumps (admin_message_edit gwEditRej2 amsgW stC5).effs 9 "edits" = 0) ∧
    (admin_message_edit gwOK amsgW stEmpty
      = { st := stEmpty, effs := [], exc := none }) := by
  have h := admin_edit_counter_discipline
  have ha := h.1 gwEditRej amsgW stC5 mapW "edited"
    "message cant be edited" 300 rfl rfl rfl rfl (Or.inl rfl)
  have hb := h.2.1 gwOK amsgW stC5 mapW "edited" rfl rfl rfl
  have hc := h.2.2.1 gwEditRej2 amsgW stC5 mapW "edited"
    "message cant be edited" "message cant be copied" rfl rfl rfl rfl
  have hd := h.2.2.2 gwOK amsgW stEmpty rfl
  exact ⟨⟨ha.1, ha.2.1, ha.2.2.2.1⟩, ⟨hb.1, hb.2.1⟩, hc.1, hd⟩

lemma applyUpdate_user_id (k : UserUpdate) (u : UserRec) :
    (applyUpdate k u).user_id = u.user_id := rfl

lemma userRows_tguser_update (users : List UserRec) (uid : Int)
    (k : UserUpdate) :
    userRows (tguser_update users uid k) uid
      = (userRows users uid).map (applyUpdate k) := by
  unfold userRows tguser_update
  induction users with
  | nil => rfl
  | cons a t ih =>
    by_cases h : (a.user_id == uid) = true
    · have hpres : ((applyUpdate k a).user_id == uid) = true := h
      simp only [List.map_cons, List.filter_cons, h, hpres, if_pos,
        eq_self_iff_true, if_true, ih, List.map_cons]
    · simp only [List.map_cons, List.filter_cons, h, ih]
      simp [h]

/-- C3 scenario (i): gate-open user bound to a thread that the gateway
reports as not found — one fresh topic, exactly one retried forward, and
the single combined record update to the new thread id and message
timestamp. -/
lemma user_message_thread_recreate (bot : Bot) (gw : Gw) (m : Msg)
    (today : Nat) (st : St) (u : UserRec) (t t2 : Int) (s : String)
    (hqr : bot.admin_quick_replies = none)
    (hu : tguser_get st.users m.chat_id = some u)
    (huq : userRows st.users m.chat_id = [u])
    (hb : u.banned = false) (hc : u.can_message = true)
    (ht : u.thread_id = some t)
    (hfwt : gw.forward t = some (.badRequest s))
    (hsub : containsSub (pyLower s) "thread not found" = true)
    (hct : gw.createTopicRes = .ok t2)
    (hfw2 : gw.forward t2 = none)
    (hsendg : gw.send bot.cfg.admin_group_id = none)
    (hsendu : gw.send m.chat_id = none)
    (hedit : gw.editText = none) :
    (user_message bot gw m today st).exc = none ∧
    countTopicCreations (user_message bot gw m today st).effs = 1 ∧
    countForwards (user_message bot gw m today st).effs = 2 ∧
    countUpdates (user_message bot gw m today st).effs m.chat_id = 1 ∧
    userRows (user_message bot gw m today st).st.users m.chat_id
      = [{ u with
             thread_id := some t2, last_user_msg_at := m.date,
             first_replied := true }] := by
  by_cases hfrep : u.first_replied <;>
    by_cases hfr : bot.cfg.first_reply = "" <;>
    simp [user_message, user_message_tail, create_user_topic,
      send_new_msg_with_keyboard, hu, huq, hb, hc, ht, hfwt, hsub, hct, hfw2,
      hsendg, hsendu, hedit, hqr, hfrep, hfr, countTopicCreations,
      countForwards, countUpdates, userRows_tguser_update, applyUpdate,
      save_for_destruction_users, save_user_message_users]

/-- C3 scenario (iv) — a second behaviour the claim misses: with a
quick-reply document configured (admin_replies.toml non-empty),
topics.create_user_topic imports buttons.send_new_msg_with_keyboard to
post the quick-reply keyboard into the fresh thread, and that function
evaluates `_get_kb_builder` — absent from buttons.py — so the
recreation attempt creates the new topic but then dies with NameError:
the forward is NOT retried and the user record is NOT updated. -/
lemma user_message_thread_recreate_qr (bot : Bot) (gw : Gw) (m : Msg)
    (today : Nat) (st : St) (u : UserRec) (t t2 : Int) (s : String)
    (qr : MenuItem)
    (hqr : bot.admin_quick_replies = some qr)
    (hu : tguser_get st.users m.chat_id = some u)
    (hb : u.banned = false) (hc : u.can_message = true)
    (ht : u.thread_id = some t)
    (hfwt : gw.forward t = some (.badRequest s))
    (hsub : containsSub (pyLower s) "thread not found" = true)
    (hct : gw.createTopicRes = .ok t2)
    (hsendg : gw.send bot.cfg.admin_group_id = none) :
    (user_message bot gw m today st).exc
        = some (TgExc.nameError "_get_kb_builder") ∧
    countTopicCreations (user_message bot gw m today st).effs = 1 ∧
    countForwards (user_message bot gw m today st).effs = 1 ∧
    countUpdates (user_message bot gw m today st).effs m.chat_id = 0 ∧
    (user_message bot gw m today st).st = st := by
  have hgkb : "_get_kb_builder" ∉ buttonsModuleNames := by decide
  simp [user_message, user_message_tail, create_user_topic,
    send_new_msg_with_keyboard, hu, hb, hc, ht, hfwt, hsub, hct,
    hsendg, hqr, hgkb, countTopicCreations, countForwards, countUpdates]

/-- C3 scenario (ii): a forward failure that is not a TelegramBadRequest
is not retried and propagates as-is; the record stays untouched. -/
lemma user_message_forward_error_propagates (bot : Bot) (gw : Gw) (m : Msg)
    (today : Nat) (st : St) (u : UserRec) (t : Int) (e : TgExc)
    (hu : tguser_get st.users m.chat_id = some u)
    (hb : u.banned = false) (hc : u.can_message = true)
    (ht : u.thread_id = some t)
    (hne : ∀ s, e ≠ TgExc.badRequest s)
    (hfwt : gw.forward t = some e) :
    (user_message bot gw m today st).exc = some e ∧
    countForwards (user_message bot gw m today st).effs = 1 ∧
    countTopicCreations (user_message bot gw m today st).effs = 0 ∧
    countUpdates (user_message bot gw m today st).effs m.chat_id = 0 ∧
    (user_message bot gw m today st).st = st := by
  cases e with
  | badRequest s => exact absurd rfl (hne s)
  | forbidden =>
    simp [user_message, hu, hb, hc, ht, hfwt, countForwards,
      countTopicCreations, countUpdates]
  | nameError n =>
    simp [user_message, hu, hb, hc, ht, hfwt, countForwards,
      countTopicCreations, countUpdates]
  | attributeError a =>
    simp [user_message, hu, hb, hc, ht, hfwt, countForwards,
      countTopicCreations, countUpdates]
  | otherError s =>
    simp [user_message, hu, hb, hc, ht, hfwt, countForwards,
      countTopicCreations, countUpdates]

/-- C3 scenario (iii) — the behaviour the claim misses: a
TelegramBadRequest whose text lacks "thread not found" is caught by the
same except clause, which then falls through without re-raising, so the
handler neither retries nor propagates: it proceeds to the combined
record update as if the forward had succeeded. -/
lemma user_message_swallows_bad_request (bot : Bot) (gw : Gw) (m : Msg)
    (today : Nat) (st : St) (u : UserRec) (t : Int) (s : String)
    (hu : tguser_get st.users m.chat_id = some u)
    (huq : userRows st.users m.chat_id = [u])
    (hb : u.banned = false) (hc : u.can_message = true)
    (ht : u.thread_id = some t)
    (hfwt : gw.forward t = some (.badRequest s))
    (hsub : containsSub (pyLower s) "thread not found" = false)
    (hsendu : gw.send m.chat_id = none) :
    (user_message bot gw m today st).exc = none ∧
    countForwards (user_message bot gw m today st).effs = 1 ∧
    countTopicCreations (user_message bot gw m today st).effs = 0 ∧
    countUpdates (user_message bot gw m today st).effs m.chat_id = 1 ∧
    userRows (user_message bot gw m today st).st.users m.chat_id
      = [{ u with
             thread_id := some t, last_user_msg_at := m.date,
             first_replied := true }] := by
  by_cases hfrep : u.first_replied <;>
    by_cases hfr : bot.cfg.first_reply = "" <;>
    simp [user_message, user_message_tail, hu, huq, hb, hc, ht, hfwt, hsub,
      hsendu, hfrep, hfr, countTopicCreations, countForwards, countUpdates,
      userRows_tguser_update, applyUpdate,
      save_for_destruction_users, save_user_message_users]

/-- C3 counterexample: with the bound thread rejected by a
TelegramBadRequest that is not thread-not-found ("message can not be
forwarded"), the raw handler returns normally — no exception propagates,
no retry happens, and the record update still runs — refuting the
claim's "any other gateway failure during forwarding is not retried and
propagates as-is". -/
theorem user_message_other_bad_request_not_propagated :
    gwBR.forward 5 = some (TgExc.badRequest "message can not be forwarded") ∧
    containsSub (pyLower "message can not be forwarded") "thread not found"
      = false ∧
    (user_message botW gwBR mU 0 stC3).exc = none ∧
    countForwards (user_message botW gwBR mU 0 stC3).effs = 1 ∧
    countUpdates (user_message botW gwBR mU 0 stC3).effs 1 = 1 := by
  decide

/-- C3 (amended): for a gate-open user bound to a thread, (i) when no
quick-reply document is configured, the thread-not-found BadRequest
triggers exactly one new thread creation, exactly one retry of the
forward, and the single combined update that records the new thread id
together with the message timestamp; (ii) a non-BadRequest gateway
failure during forwarding is not retried and propagates as-is; (iii) a
BadRequest whose text lacks "thread not found" is caught and silently
swallowed — not retried, not propagated, and the handler proceeds to
update the record as if delivery had succeeded; (iv) with a quick-reply
document configured, the recreation attempt creates the new topic but
then dies with NameError on `_get_kb_builder` inside
buttons.send_new_msg_with_keyboard, so the forward is not retried and
the record is not updated. -/
theorem thread_recreation_policy :
    (∀ (bot : Bot) (gw : Gw) (m : Msg) (today : Nat) (st : St) (u : UserRec)
        (t t2 : Int) (s : String),
      bot.admin_quick_replies = none →
      tguser_get st.users m.chat_id = some u →
      userRows st.users m.chat_id = [u] →
      u.banned = false → u.can_message = true → u.thread_id = some t →
      gw.forward t = some (.badRequest s) →
      containsSub (pyLower s) "thread not found" = true →
      gw.createTopicRes = .ok t2 → gw.forward t2 = none →
      gw.send bot.cfg.admin_group_id = none → gw.send m.chat_id = none →
      gw.editText = none →
      (user_message bot gw m today st).exc = none ∧
      countTopicCreations (user_message bot gw m today st).effs = 1 ∧
      countForwards (user_message bot gw m today st).effs = 2 ∧
      countUpdates (user_message bot gw m today st).effs m.chat_id = 1 ∧
      userRows (user_message bot gw m today st).st.users m.chat_id
        = [{ u with
               thread_id := some t2, last_user_msg_at := m.date,
               first_replied := true }]) ∧
    (∀ (bot : Bot) (gw : Gw) (m : Msg) (today : Nat) (st : St) (u : UserRec)
        (t : Int) (e : TgExc),
      tguser_get st.users m.chat_id = some u →
      u.banned = false → u.can_message = true → u.thread_id = some t →
      (∀ s, e ≠ TgExc.badRequest s) → gw.forward t = some e →
      (user_message bot gw m today st).exc = some e ∧
      countForwards (user_message bot gw m today st).effs = 1 ∧
      countTopicCreations (user_message bot gw m today st).effs = 0 ∧
      countUpdates (user_message bot gw m today st).effs m.chat_id = 0) ∧
    (∀ (bot : Bot) (gw : Gw) (m : Msg) (today : Nat) (st : St) (u : UserRec)
        (t : Int) (s : String),
      tguser_get st.users m.chat_id = some u →
      userRows st.users m.chat_id = [u] →
      u.banned = false → u.can_message = true → u.thread_id = some t →
      gw.forward t = some (.badRequest s) →
      containsSub (pyLower s) "thread not found" = false →
      gw.send m.chat_id = none →
      (user_message bot gw m today st).exc = none ∧
      countForwards (user_message bot gw m today st).effs = 1 ∧
      countTopicCreations (user_message bot gw m today st).effs = 0 ∧
      countUpdates (user_message bot gw m today st).effs m.chat_id = 1) ∧
    (∀ (bot : Bot) (gw : Gw) (m : Msg) (today : Nat) (st : St) (u : UserRec)
        (t t2 : Int) (s : String) (qr : MenuItem),
      bot.admin_quick_replies = some qr →
      tguser_get st.users m.chat_id = some u →
      u.banned = false → u.can_message = true → u.thread_id = some t →
      gw.forward t = some (.badRequest s) →
      containsSub (pyLower s) "thread not found" = true →
      gw.createTopicRes = .ok t2 →
      gw.send bot.cfg.admin_group_id = none →
      (user_message bot gw m today st).exc
          = some (TgExc.nameError "_get_kb_builder") ∧
      countTopicCreations (user_message bot gw m today st).effs = 1 ∧
      countForwards (user_message bot gw m today st).effs = 1 ∧
      countUpdates (user_message bot gw m today st).effs m.chat_id = 0 ∧
      (user_message bot gw m today st).st = st) := by
  refine ⟨?_, ?_, ?_, ?_⟩
  · intro bot gw m today st u t t2 s hqr hu huq hb hc ht hfwt hsub hct hfw2
      hsendg hsendu hedit
    exact user_message_thread_recreate bot gw m today st u t t2 s hqr hu huq
      hb hc ht hfwt hsub hct hfw2 hsendg hsendu hedit
  · intro bot gw m today st u t e hu hb hc ht hne hfwt
    have h := user_message_forward_error_propagates bot gw m today st u t e
      hu hb hc ht hne hfwt
    exact ⟨h.1, h.2.1, h.2.2.1, h.2.2.2.1⟩
  · intro bot gw m today st u t s hu huq hb hc ht hfwt hsub hsendu
    have h := user_message_swallows_bad_request bot gw m today st u t s hu
      huq hb hc ht hfwt hsub hsendu
    exact ⟨h.1, h.2.1, h.2.2.1, h.2.2.2.1⟩
  · intro bot gw m today st u t t2 s qr hqr hu hb hc ht hfwt hsub hct hsendg
    exact user_message_thread_recreate_qr bot gw m today st u t t2 s qr hqr
      hu hb hc ht hfwt hsub hct hsendg

theorem thread_recreation_policy_witness :
    ((user_message botW gwTNF mU 0 stC3).exc = none ∧
      countTopicCreations (user_message botW gwTNF mU 0 stC3).effs = 1 ∧
      countForwards (user_message botW gwTNF mU 0 stC3).effs = 2 ∧
      countUpdates (user_message botW gwTNF mU 0 stC3).effs 1 = 1) ∧
    ((user_message botW gwFwd403 mU 0 stC3).exc = some TgExc.forbidden ∧
      countForwards (user_message botW gwFwd403 mU 0 stC3).effs = 1 ∧
      countTopicCreations (user_message botW gwFwd403 mU 0 stC3).effs = 0) ∧
    ((user_message botQR gwTNF mU 0 stC3).exc
        = some (TgExc.nameError "_get_kb_builder") ∧
      countTopicCreations (user_message botQR gwTNF mU 0 stC3).effs = 1 ∧
      countForwards (user_message botQR gwTNF mU 0 stC3).effs = 1 ∧
      countUpdates (user_message botQR gwTNF mU 0 stC3).effs 1 = 0 ∧
      (user_message botQR gwTNF mU 0 stC3).st = stC3) := by
  have h := thread_recreation_policy
  have ha := h.1 botW gwTNF mU 0 stC3 uRec3 5 77
    "Bad Request: message thread not found" rfl rfl rfl rfl rfl rfl rfl
    (by decide) rfl rfl rfl rfl rfl
  have hb := h.2.1 botW gwFwd403 mU 0 stC3 uRec3 5 TgExc.forbidden rfl rfl
    rfl rfl (fun s h2 => by cases h2) rfl
  have hd := h.2.2.2 botQR gwTNF mU 0 stC3 uRec3 5 77
    "Bad Request: message thread not found" menuW rfl rfl rfl rfl rfl rfl
    (by decide) rfl rfl
  exact ⟨⟨ha.1, ha.2.1, ha.2.2.1, ha.2.2.2.1⟩, ⟨hb.1, hb.2.1, hb.2.2.1⟩, hd⟩

/-- C1 (code_bug): the user-button handler never reaches its start_chat
arm: the body of buttons.user_btn_handler begins by unpacking the
callback payload with `CBD`, which is neither defined in nor imported
into buttons.py, so every tap raises NameError("CBD") before any state
is touched — the opt-in update `db.tguser.update(user_id,
can_message=True, first_replied=False)` is unreachable, no message is
sent or edited, and the error wrapper turns the tap into a logged
no-op, contradicting the claim that the tap re-opens the gate and
resets the first-reply flag. -/
theorem contact_button_name_error (bot : Bot) (gw : Gw) (call : Call)
    (st : St) :
    buttonsModuleNames.contains "CBD" = false ∧
    (user_btn_handler bot gw call st).exc = some (TgExc.nameError "CBD") ∧
    (user_btn_handler bot gw call st).st = st ∧
    (user_btn_handler bot gw call st).effs = [] ∧
    (handle_error false false (user_btn_handler bot gw call st)).logged
      = true := by
  have hcbd : buttonsModuleNames.contains "CBD" = false := by decide
  have hmem : "CBD" ∉ buttonsModuleNames := by decide
  exact ⟨hcbd, by simp [user_btn_handler, hcbd, hmem, handle_error]⟩

end SupportBot
